import Mathlib

/-!
Verification development for the CMSIS-DAP command/response engine
(`orbtrace/nmigen/cmsis_dap.py`).

The source is a synchronous finite-state machine written in nMigen.  We embed
it shallowly as a deterministic step function on an explicit state record:

* every nMigen `Signal` driven by `m.d.sync` becomes a field of `DapState`;
* all signals read by the module but driven elsewhere (the host stream
  `streamOut`, the `streamIn.ready` backpressure, and the result/handshake
  signals of the `DBGIF` debug transactor submodule, which is not part of this
  file) become per-cycle inputs in `DapInputs`;
* `step` computes the registered state after one clock edge.  Following
  nMigen semantics, every right-hand side is evaluated on the pre-edge state
  `s`, and when several statements assign (parts of) the same signal in one
  cycle the later statement wins bit-by-bit; we realise this by threading an
  accumulator state `d` through the handler in program order while reading
  only from `s` and `i`;
* multi-byte registers (`rxBlock`, `txBlock`, ...) are natural numbers with
  explicit bit-field access, matching `word_select` / `bit_select`;
* assignments are truncated to the declared signal width with `% 2 ^ w`.

The response RAM (`WideRam`, a 32-bit wide memory with one synchronous read
port and one write port) is embedded as a function from addresses to words
plus the registered read-port output `ram_dat_r`.
-/

set_option maxRecDepth 100000

namespace CmsisDap

/-- Bit-field read: `sel n off w` is `n[off +: w]`, the `w` bits of `n`
starting at bit `off` (nMigen `bit_select(off, w)`). -/
def sel (n off w : Nat) : Nat := n / 2 ^ off % 2 ^ w

/-- Bit-field write: replace the `w` bits of `n` starting at bit `off` with
`v` (truncated to `w` bits); all other bits are kept. -/
def setBits (n off w v : Nat) : Nat :=
  n % 2 ^ off + v % 2 ^ w * 2 ^ off + n / 2 ^ (off + w) * 2 ^ (off + w)

/-- Byte read, nMigen `word_select(i, 8)`. -/
def byteGet (n i : Nat) : Nat := sel n (8 * i) 8

/-- Byte write, nMigen `word_select(i, 8).eq v`. -/
def byteSet (n i v : Nat) : Nat := setBits n (8 * i) 8 v

/-- Single-bit read as `Bool`. -/
def bitGet (n i : Nat) : Bool := n / 2 ^ i % 2 = 1

-- Default configuration information (constants of the source file).

def DAP_CONNECT_DEFAULT : Nat := 1
def DAP_CAPABILITIES : Nat := 0x03
def DAP_TD_TIMER_FREQ : Nat := 0x3B9ACA00
def DAP_MAX_PACKET_COUNT : Nat := 1
def DAP_V1_MAX_PACKET_SIZE : Nat := 64
def DAP_V2_MAX_PACKET_SIZE : Nat := 511

-- CMSIS-DAP protocol message ids.

def DAP_Info : Nat := 0x00
def DAP_HostStatus : Nat := 0x01
def DAP_Connect : Nat := 0x02
def DAP_Disconnect : Nat := 0x03
def DAP_TransferConfigure : Nat := 0x04
def DAP_Transfer : Nat := 0x05
def DAP_TransferBlock : Nat := 0x06
def DAP_TransferAbort : Nat := 0x07
def DAP_WriteABORT : Nat := 0x08
def DAP_Delay : Nat := 0x09
def DAP_ResetTarget : Nat := 0x0a
def DAP_SWJ_Pins : Nat := 0x10
def DAP_SWJ_Clock : Nat := 0x11
def DAP_SWJ_Sequence : Nat := 0x12
def DAP_SWD_Configure : Nat := 0x13
def DAP_JTAG_Sequence : Nat := 0x14
def DAP_JTAG_Configure : Nat := 0x15
def DAP_JTAG_IDCODE : Nat := 0x16
def DAP_SWO_Transport : Nat := 0x17
def DAP_SWO_Mode : Nat := 0x18
def DAP_SWO_Baudrate : Nat := 0x19
def DAP_SWO_Control : Nat := 0x1a
def DAP_SWO_Status : Nat := 0x1b
def DAP_SWO_Data : Nat := 0x1c
def DAP_SWD_Sequence : Nat := 0x1d
def DAP_SWO_ExtendedStatus : Nat := 0x1e
def DAP_ExecuteCommands : Nat := 0x7f
def DAP_QueueCommands : Nat := 0x7e
def DAP_Invalid : Nat := 0xff

-- Commands to the dbgIF.

def CMD_RESET : Nat := 0
def CMD_PINS_WRITE : Nat := 1
def CMD_TRANSACT : Nat := 2
def CMD_SET_SWD : Nat := 3
def CMD_SET_JTAG : Nat := 4
def CMD_SET_SWJ : Nat := 5
def CMD_SET_JTAG_CFG : Nat := 6
def CMD_SET_CLK : Nat := 7
def CMD_SET_SWD_CFG : Nat := 8
def CMD_WAIT : Nat := 9
def CMD_CLR_ERR : Nat := 10
def CMD_SET_RST_TMR : Nat := 11
def CMD_SET_TFR_CFG : Nat := 12
def CMD_JTAG_GET_ID : Nat := 13
def CMD_JTAG_RESET : Nat := 14

/-- States of the top-level `m.FSM` in `CMSIS_DAP.elaborate`, one constructor
per `m.State` string (the unreachable state string `DAP_TransferBlock` is
rendered `DAP_TransferBlock_State` to avoid clashing with the command id). -/
inductive FSM where
  | IDLE
  | RESPOND
  | V1PACKETFILL
  | RxParams
  | DAP_SWJ_Pins_PROCESS
  | DAP_SWO_Data_PROCESS
  | DAP_SWJ_Sequence_PROCESS
  | DAP_JTAG_Sequence_PROCESS
  | DAP_Transfer_PROCESS
  | DAP_TransferBlock_PROCESS
  | UPLOAD_RXED_DATA
  | JTAG_IDCODE_Process
  | DAP_SWD_Sequence_GetCount
  | DAP_TransferBlock_State
  | DAP_ExecuteCommands_GetNum
  | DAP_QueueCommands_GetNum
  | DAP_Wait_Done
  | DAP_Wait_Connect_Done
  | Error
  | ProtocolError
  deriving DecidableEq, Repr

/-- All synchronously driven signals of `CMSIS_DAP` (its own registers, the
request registers of the `dbgif` submodule which this module drives, the
driven half of `streamIn`, the CDC shift register and the transfer RAM). -/
structure DapState where
  -- current state of the top-level FSM
  fsm : FSM
  -- canary
  can : Bool
  -- external flags
  running : Bool
  connected : Bool
  -- receive side
  rxBlock : Nat      -- 7 * 8 bits
  rxLen : Nat        -- 3 bits
  rxedLen : Nat      -- 3 bits
  swjbits : Nat      -- 8 bits (declared, never driven)
  -- transmit side
  txBlock : Nat      -- 14 * 8 bits
  txLen : Nat        -- 9 bits (range MAX_MSG_LEN)
  txedLen : Nat      -- 9 bits
  busy : Bool
  txb : Nat          -- 5 bits
  -- SWJ_Sequence support
  bitcount : Nat     -- 3 bits
  -- JTAG_Sequence support
  tmsValue : Bool    -- declared, never driven
  tdoCapture : Bool  -- declared, never driven
  tdiData : Nat      -- 8 bits
  tdoCount : Nat     -- 4 bits
  tdiCount : Nat     -- 4 bits
  seqCount : Nat     -- 8 bits
  tckCycles : Nat    -- 6 bits
  tdotgt : Nat       -- 7 bits
  pendingTx : Nat    -- 8 bits
  tdoBuild : Nat     -- 8 bits
  -- DAP_Transfer support
  dapIndex : Nat     -- 8 bits
  transferCount : Nat -- 16 bits
  mask : Nat         -- 32 bits
  retries : Nat      -- 16 bits
  matchretries : Nat -- 16 bits
  tfrReq : Nat       -- 8 bits
  tfrData : Nat      -- 32 bits
  -- configuration info
  ndev : Nat         -- 8 bits (declared, never driven)
  irlength : Nat     -- 8 bits (declared, never driven)
  waitRetry : Nat    -- 16 bits
  matchRetry : Nat   -- 16 bits
  -- registers of the dbgif submodule driven by this module
  dbg_command : Nat
  dbg_apndp : Bool
  dbg_rnw : Bool
  dbg_addr32 : Nat   -- 2 bits
  dbg_dwrite : Nat   -- 32 bits
  dbg_pinsin : Nat   -- 16 bits
  dbg_countdown : Nat -- 32 bits
  dbg_go : Bool
  -- driven half of streamIn
  si_valid : Bool
  si_payload : Nat   -- 8 bits
  si_last : Bool
  -- clock-domain-crossing shift register for dbgif.done
  done_cdc : Nat     -- 2 bits
  -- tfrram (WideRam): address register, registered read-port data, contents
  ram_adr : Nat      -- range (MAX_MSG_LEN / 4)
  ram_dat_r : Nat    -- 32 bits
  ram_mem : Nat → Nat

/-- Per-cycle inputs: the host stream source `streamOut`, the host sink
backpressure `streamIn.ready`, the `v2Indication` signal, and the response
signals of the `DBGIF` transactor submodule. -/
structure DapInputs where
  so_valid : Bool
  so_payload : Nat   -- 8 bits
  so_first : Bool
  so_last : Bool
  si_ready : Bool
  isV2 : Bool
  done : Bool
  ack : Nat          -- 3 bits
  perr : Bool
  again : Bool
  postedMode : Bool
  ignoreData : Bool
  dread : Nat        -- 32 bits
  pinsout : Nat      -- 16 bits

/-- Combinational `dbg_done` signal: `done_cdc == 0b11`. -/
def dbg_done (s : DapState) : Bool := s.done_cdc = 3

/-- Reset state: every register starts at zero (nMigen reset default), the
FSM starts in `IDLE`, the RAM is zeroed. -/
def dapInit : DapState where
  fsm := .IDLE
  can := false
  running := false
  connected := false
  rxBlock := 0
  rxLen := 0
  rxedLen := 0
  swjbits := 0
  txBlock := 0
  txLen := 0
  txedLen := 0
  busy := false
  txb := 0
  bitcount := 0
  tmsValue := false
  tdoCapture := false
  tdiData := 0
  tdoCount := 0
  tdiCount := 0
  seqCount := 0
  tckCycles := 0
  tdotgt := 0
  pendingTx := 0
  tdoBuild := 0
  dapIndex := 0
  transferCount := 0
  mask := 0
  retries := 0
  matchretries := 0
  tfrReq := 0
  tfrData := 0
  ndev := 0
  irlength := 0
  waitRetry := 0
  matchRetry := 0
  dbg_command := 0
  dbg_apndp := false
  dbg_rnw := false
  dbg_addr32 := 0
  dbg_dwrite := 0
  dbg_pinsin := 0
  dbg_countdown := 0
  dbg_go := false
  si_valid := false
  si_payload := 0
  si_last := false
  done_cdc := 0
  ram_adr := 0
  ram_dat_r := 0
  ram_mem := fun _ => 0

/-- Handler `RESP_Invalid`: transmit an invalid packet back. -/
def RESP_Invalid (s : DapState) (i : DapInputs) (d : DapState) : DapState :=
  { d with txBlock := (byteSet d.txBlock 0 DAP_Invalid) % 2 ^ 112,
           txLen := 1, busy := true, fsm := .RESPOND }

/-- The value of the constant `DAP_PROTOCOL_STRING` (little-endian bytes
`[6, 0x32, 0x2e, 0x31, 0x2e, 0x30, 0]`). -/
def DAP_PROTOCOL_STRING : Nat := 0x302e312e3206

def DAP_PROTOCOL_STRING_LEN : Nat := 5

/-- The value of the constant `DAP_VERSION_STRING` (little-endian bytes
`[5, 0x31, 0x2e, 0x30, 0x30, 0]`). -/
def DAP_VERSION_STRING : Nat := 0x30302e3105

def DAP_VERSION_STRING_LEN : Nat := 4

/-- Handler `RESP_Info`: transmit requested information packet back. -/
def RESP_Info (s : DapState) (i : DapInputs) (d : DapState) : DapState :=
  let d := { d with fsm := .RESPOND }
  let req := byteGet s.rxBlock 1
  if req = 0x01 ∨ req = 0x02 ∨ req = 0x03 ∨ req = 0x05 ∨ req = 0x06 ∨
     req = 0x07 ∨ req = 0x08 then
    { d with txLen := 2, txBlock := (setBits d.txBlock 8 8 0) % 2 ^ 112 }
  else if req = 0x04 then
    { d with txLen := 3 + DAP_PROTOCOL_STRING_LEN,
             txBlock := (setBits d.txBlock 8 (8 + (2 + DAP_PROTOCOL_STRING_LEN) * 8)
                          DAP_PROTOCOL_STRING) % 2 ^ 112 }
  else if req = 0x09 then
    { d with txLen := 3 + DAP_VERSION_STRING_LEN,
             txBlock := (setBits d.txBlock 8 (8 + (2 + DAP_VERSION_STRING_LEN) * 8)
                          DAP_VERSION_STRING) % 2 ^ 112 }
  else if req = 0xF0 then
    { d with txLen := 3,
             txBlock := (setBits d.txBlock 8 16 (1 + DAP_CAPABILITIES * 256)) % 2 ^ 112 }
  else if req = 0xF1 then
    { d with txLen := 6,
             txBlock := (setBits d.txBlock 8 48 (8 + DAP_TD_TIMER_FREQ * 256)) % 2 ^ 112 }
  else if req = 0xFD then
    { d with txLen := 6, txBlock := (setBits d.txBlock 8 40 4) % 2 ^ 112 }
  else if req = 0xFE then
    { d with txLen := 6,
             txBlock := (setBits d.txBlock 8 16 (1 + DAP_MAX_PACKET_COUNT * 256)) % 2 ^ 112 }
  else if req = 0xFF then
    if i.isV2 then
      { d with txLen := 6,
               txBlock := (setBits d.txBlock 8 24 (2 + DAP_V2_MAX_PACKET_SIZE * 256)) % 2 ^ 112 }
    else
      { d with txLen := 6,
               txBlock := (setBits d.txBlock 8 24 (2 + DAP_V1_MAX_PACKET_SIZE * 256)) % 2 ^ 112 }
  else RESP_Invalid s i d

/-- Handler `RESP_Not_Implemented`. -/
def RESP_Not_Implemented (s : DapState) (i : DapInputs) (d : DapState) : DapState :=
  { d with txBlock := (byteSet d.txBlock 1 0xff) % 2 ^ 112, fsm := .RESPOND }

/-- Handler `RESP_HostStatus`: set LEDs for condition of debugger. -/
def RESP_HostStatus (s : DapState) (i : DapInputs) (d : DapState) : DapState :=
  let d := { d with fsm := .RESPOND }
  let req := byteGet s.rxBlock 1
  if req = 0x00 then { d with connected := byteGet s.rxBlock 2 = 1 }
  else if req = 0x01 then { d with running := byteGet s.rxBlock 2 = 1 }
  else RESP_Invalid s i d

/-- Handler `RESP_Connect_Setup`: perform connect operation.  The handler
first emits the invalid response and then (sequentially, later statements
winning) overrides it for the SWD and JTAG cases; `DAP_CONNECT_DEFAULT = 1`
and both capability bits are set in this build. -/
def RESP_Connect_Setup (s : DapState) (i : DapInputs) (d : DapState) : DapState :=
  let d := RESP_Invalid s i d
  let port := byteGet s.rxBlock 1
  let d :=
    if port = 0 ∨ port = 1 then
      { d with txBlock := (setBits d.txBlock 0 16 (byteGet s.rxBlock 0 + 1 * 256)) % 2 ^ 112,
               dbg_command := CMD_SET_SWD, txLen := 2, dbg_go := true,
               fsm := .DAP_Wait_Connect_Done }
    else d
  if port = 2 then
    { d with txBlock := (setBits d.txBlock 0 16 (byteGet s.rxBlock 0 + 2 * 256)) % 2 ^ 112,
             dbg_command := CMD_SET_JTAG, txLen := 2, dbg_go := true,
             fsm := .DAP_Wait_Connect_Done }
  else d

/-- Handler `RESP_Wait_Connect_Done`: generic wait for inferior to process
command. -/
def RESP_Wait_Connect_Done (s : DapState) (i : DapInputs) (d : DapState) : DapState :=
  let d := if s.dbg_go ∧ ¬dbg_done s then { d with dbg_go := false } else d
  if ¬s.dbg_go ∧ dbg_done s then { d with fsm := .RESPOND } else d

/-- Handler `RESP_Wait_Done`: generic wait for inferior to process command,
recording the parity-error flag in the second response byte. -/
def RESP_Wait_Done (s : DapState) (i : DapInputs) (d : DapState) : DapState :=
  let d := if s.dbg_go ∧ ¬dbg_done s then { d with dbg_go := false } else d
  if ¬s.dbg_go ∧ dbg_done s then
    { d with txBlock := (setBits d.txBlock 8 8 (if i.perr then 0xff else 0)) % 2 ^ 112,
             fsm := .RESPOND }
  else d

/-- Handler `RESP_Disconnect`. -/
def RESP_Disconnect (s : DapState) (i : DapInputs) (d : DapState) : DapState :=
  { d with running := false, connected := false, fsm := .RESPOND }

/-- Handler `RESP_WriteABORT`: post abort code to register. -/
def RESP_WriteABORT (s : DapState) (i : DapInputs) (d : DapState) : DapState :=
  { d with dbg_command := CMD_TRANSACT, dbg_apndp := false, dbg_rnw := false,
           dbg_addr32 := 0, dbg_dwrite := sel s.rxBlock 16 32, dbg_go := true,
           fsm := .DAP_Wait_Done }

/-- Handler `RESP_Delay`: delay for programmed number of uS. -/
def RESP_Delay (s : DapState) (i : DapInputs) (d : DapState) : DapState :=
  { d with dbg_dwrite := byteGet s.rxBlock 2 + byteGet s.rxBlock 1 * 256,
           dbg_command := CMD_WAIT, dbg_go := true, fsm := .DAP_Wait_Done }

/-- Handler `RESP_ResetTarget`. -/
def RESP_ResetTarget (s : DapState) (i : DapInputs) (d : DapState) : DapState :=
  { d with txBlock := (setBits d.txBlock 8 16 256) % 2 ^ 112, txLen := 3,
           dbg_command := CMD_RESET, dbg_go := true, fsm := .DAP_Wait_Done }

/-- Handler `RESP_SWJ_Pins_Setup`.  NB the source loads `countdown` from
`txBlock` (not `rxBlock`), which we translate faithfully. -/
def RESP_SWJ_Pins_Setup (s : DapState) (i : DapInputs) (d : DapState) : DapState :=
  { d with dbg_pinsin := sel s.rxBlock 8 16, dbg_countdown := sel s.txBlock 24 32,
           fsm := .DAP_SWJ_Pins_PROCESS }

/-- Handler `RESP_SWJ_Pins_Process`: the transition to `RESPOND` is
unconditional in the source. -/
def RESP_SWJ_Pins_Process (s : DapState) (i : DapInputs) (d : DapState) : DapState :=
  let d :=
    if dbg_done s then
      { d with txBlock := (byteSet d.txBlock 1 i.pinsout) % 2 ^ 112, txLen := 2 }
    else d
  { d with fsm := .RESPOND }

/-- Handler `RESP_SWJ_Clock`. -/
def RESP_SWJ_Clock (s : DapState) (i : DapInputs) (d : DapState) : DapState :=
  { d with dbg_dwrite := sel s.rxBlock 8 32, dbg_command := CMD_SET_CLK,
           dbg_go := true, fsm := .DAP_Wait_Done }

/-- Handler `RESP_SWJ_Sequence_Setup`. -/
def RESP_SWJ_Sequence_Setup (s : DapState) (i : DapInputs) (d : DapState) : DapState :=
  { d with transferCount := if byteGet s.rxBlock 1 ≠ 0 then byteGet s.rxBlock 1 else 256,
           txb := 0, dbg_dwrite := 0, dbg_pinsin := 0x1310, bitcount := 0,
           dbg_command := CMD_PINS_WRITE, fsm := .DAP_SWJ_Sequence_PROCESS }

/-- Handler `RESP_SWJ_Sequence_Process`. -/
def RESP_SWJ_Sequence_Process (s : DapState) (i : DapInputs) (d : DapState) : DapState :=
  if s.txb = 0 then
    if i.so_valid ∧ ¬s.busy then
      { d with tfrData := i.so_payload, txb := 1, busy := true }
    else { d with busy := false }
  else if s.txb = 1 then
    { d with dbg_pinsin :=
               (setBits d.dbg_pinsin 0 2 (2 * (if bitGet s.tfrData 0 then 1 else 0))) % 65536,
             tfrData := s.tfrData >>> 1,
             transferCount := (s.transferCount + 65535) % 65536,
             dbg_go := true, bitcount := (s.bitcount + 1) % 8, txb := 2 }
  else if s.txb = 2 then
    let d := if ¬dbg_done s then { d with dbg_go := false } else d
    if ¬s.dbg_go ∧ dbg_done s then
      { d with dbg_pinsin := (setBits d.dbg_pinsin 0 1 1) % 65536, dbg_go := true, txb := 3 }
    else d
  else if s.txb = 3 then
    let d := if ¬dbg_done s then { d with dbg_go := false } else d
    if ¬s.dbg_go ∧ dbg_done s then
      if s.transferCount ≠ 0 then
        { d with txb := if s.bitcount ≠ 0 then 1 else 0 }
      else { d with fsm := .DAP_Wait_Done }
    else d
  else d

/-- Handler `RESP_SWD_Configure`. -/
def RESP_SWD_Configure (s : DapState) (i : DapInputs) (d : DapState) : DapState :=
  { d with dbg_dwrite := byteGet s.rxBlock 1, dbg_command := CMD_SET_SWD_CFG,
           dbg_go := true, fsm := .DAP_Wait_Done }

/-- Handler `RESP_JTAG_Configure`: six 5-bit IR-length fields, each
decremented by one.  nMigen's subtraction of a 1 from an unsigned 5-bit
signal yields a 6-bit two's-complement result whose raw bits are
concatenated, hence the `(x + 63) % 64` fields packed 6 bits apart. -/
def RESP_JTAG_Configure (s : DapState) (i : DapInputs) (d : DapState) : DapState :=
  { d with dbg_dwrite :=
             ((sel s.rxBlock 11 5 + 63) % 64 +
              (sel s.rxBlock 19 5 + 63) % 64 * 2 ^ 6 +
              (sel s.rxBlock 27 5 + 63) % 64 * 2 ^ 12 +
              (sel s.rxBlock 35 5 + 63) % 64 * 2 ^ 18 +
              (sel s.rxBlock 43 5 + 63) % 64 * 2 ^ 24 +
              (sel s.rxBlock 51 5 + 63) % 64 * 2 ^ 30) % 2 ^ 32,
           dbg_command := CMD_SET_JTAG_CFG, dbg_go := true, fsm := .DAP_Wait_Done }

/-- Handler `RESP_JTAG_IDCODE_Setup`. -/
def RESP_JTAG_IDCODE_Setup (s : DapState) (i : DapInputs) (d : DapState) : DapState :=
  { d with dbg_command := CMD_JTAG_GET_ID, dbg_dwrite := byteGet s.rxBlock 1,
           txLen := 6, txBlock := (setBits d.txBlock 16 32 0) % 2 ^ 112,
           dbg_go := true, fsm := .JTAG_IDCODE_Process }

/-- Handler `RESP_JTAG_IDCODE_Process`: an `If` / `Elif` pair on `dbg_done`
alone; in particular the exit branch does not require `go` to be low. -/
def RESP_JTAG_IDCODE_Process (s : DapState) (i : DapInputs) (d : DapState) : DapState :=
  if ¬dbg_done s then { d with dbg_go := false }
  else { d with txBlock := (setBits d.txBlock 16 32 i.dread) % 2 ^ 112, fsm := .RESPOND }

/-- Handler `RESP_TransferConfigure`. -/
def RESP_TransferConfigure (s : DapState) (i : DapInputs) (d : DapState) : DapState :=
  { d with waitRetry := sel s.rxBlock 16 16, matchRetry := sel s.rxBlock 32 16,
           dbg_dwrite := byteGet s.rxBlock 1, dbg_command := CMD_SET_TFR_CFG,
           dbg_go := true, fsm := .DAP_Wait_Done }

/-- Handler `RESP_Transfer_Setup`: a transfer count of zero is answered
immediately with a good ack. -/
def RESP_Transfer_Setup (s : DapState) (i : DapInputs) (d : DapState) : DapState :=
  let d := { d with dapIndex := byteGet s.rxBlock 1, transferCount := byteGet s.rxBlock 2,
                    ram_adr := 0, busy := true, txb := 0 }
  if byteGet s.rxBlock 2 ≠ 0 then { d with fsm := .DAP_Transfer_PROCESS }
  else
    { d with txBlock := (byteSet d.txBlock 2 1) % 2 ^ 112, busy := false, txLen := 3,
             fsm := .RESPOND }

/-- Handler `RESP_Transfer_Process` (state `DAP_Transfer_PROCESS`). -/
def RESP_Transfer_Process (s : DapState) (i : DapInputs) (d : DapState) : DapState :=
  let d := { d with busy := true }
  if s.txb = 0 then
    if ¬(i.so_valid ∧ ¬s.busy) then { d with busy := false }
    else
      let d := { d with tfrReq := i.so_payload, retries := 0,
                        txBlock := (byteSet d.txBlock 1 (byteGet s.txBlock 1 + 1)) % 2 ^ 112 }
      if ¬bitGet i.so_payload 1 ∨ bitGet i.so_payload 4 ∨ bitGet i.so_payload 5 then
        { d with txb := 1 }
      else { d with txb := 5, busy := true }
  else if s.txb = 1 ∨ s.txb = 2 ∨ s.txb = 3 ∨ s.txb = 4 then
    if i.so_valid ∧ ¬s.busy then
      let d := { d with tfrData := (byteSet d.tfrData (s.txb - 1) i.so_payload) % 2 ^ 32,
                        txb := (s.txb + 1) % 32 }
      if bitGet s.tfrReq 5 ∧ s.txb = 5 then
        { d with mask := i.so_payload + sel s.tfrData 0 24 * 256, txb := 0 }
      else d
    else { d with busy := false }
  else if s.txb = 5 then
    { d with dbg_command := CMD_TRANSACT, dbg_apndp := bitGet s.tfrReq 0,
             dbg_rnw := bitGet s.tfrReq 1, dbg_addr32 := sel s.tfrReq 2 2,
             dbg_dwrite := s.tfrData, dbg_go := true, txb := (s.txb + 1) % 32 }
  else if s.txb = 6 then
    if ¬dbg_done s then { d with dbg_go := false, txb := 7 } else d
  else if s.txb = 7 then
    if dbg_done s then
      let d := { d with txBlock :=
                   (byteSet d.txBlock 2 (i.ack + (if i.perr then 8 else 0))) % 2 ^ 112 }
      if i.ack = 2 then
        { d with retries := (s.retries + 1) % 65536,
                 txb := if s.retries < s.waitRetry then 5 else 8 }
      else if bitGet s.tfrReq 4 then
        if Nat.land i.dread s.mask ≠ s.tfrData ∧ s.matchretries < s.matchRetry then
          { d with txBlock := (setBits d.txBlock 21 1 1) % 2 ^ 112, txb := 8 }
        else { d with txb := 5 }
      else
        let d := if i.again ∨ (¬i.ignoreData ∧ s.dbg_rnw) then
                   { d with ram_adr := (s.ram_adr + 1) % 128 }
                 else d
        if i.again then { d with txb := 5 }
        else
          let d := { d with transferCount := (s.transferCount + 65535) % 65536 }
          if i.ack = 1 ∧ ¬i.perr ∧ s.transferCount > 1 then { d with txb := 0 }
          else if i.postedMode then { d with tfrReq := 0x0E, retries := 0, txb := 5 }
          else { d with txb := 8 }
    else d
  else if s.txb = 8 ∨ s.txb = 9 ∨ s.txb = 10 then
    if i.si_ready then
      { d with si_payload := byteGet s.txBlock (s.txb - 8), si_valid := true,
               txb := (s.txb + 1) % 32,
               si_last := i.isV2 ∧ s.txb = 10 ∧ s.ram_adr = 0 }
    else d
  else if s.txb = 11 then
    { d with fsm := .UPLOAD_RXED_DATA, txb := 0,
             txedLen := (s.ram_adr * 4 + 3) % 512 }
  else d

/-- Handler `RESP_TransferBlock_Setup`. -/
def RESP_TransferBlock_Setup (s : DapState) (i : DapInputs) (d : DapState) : DapState :=
  let d := { d with ram_adr := 0, dbg_command := CMD_TRANSACT, retries := 0,
                    dapIndex := byteGet s.rxBlock 1,
                    transferCount := sel s.rxBlock 16 16,
                    dbg_apndp := bitGet s.rxBlock 32, dbg_rnw := bitGet s.rxBlock 33,
                    dbg_addr32 := sel s.rxBlock 34 2,
                    txBlock := (setBits d.txBlock 8 16 1) % 2 ^ 112,
                    txb := if bitGet s.rxBlock 33 then 4 else 0 }
  if sel s.rxBlock 16 16 ≠ 0 then { d with fsm := .DAP_TransferBlock_PROCESS }
  else
    { d with txBlock := (setBits d.txBlock 8 24 1) % 2 ^ 112, txLen := 4, fsm := .RESPOND }

/-- Handler `RESP_TransferBlock_Process` (state `DAP_TransferBlock_PROCESS`). -/
def RESP_TransferBlock_Process (s : DapState) (i : DapInputs) (d : DapState) : DapState :=
  let d := { d with busy := true }
  if s.txb = 0 ∨ s.txb = 1 ∨ s.txb = 2 ∨ s.txb = 3 then
    if i.so_valid ∧ ¬s.busy then
      { d with tfrData := (byteSet d.tfrData s.txb i.so_payload) % 2 ^ 32,
               txb := (s.txb + 1) % 32 }
    else { d with busy := false }
  else if s.txb = 4 then
    { d with dbg_dwrite := s.tfrData, dbg_go := true,
             retries := (s.retries + 1) % 65536, txb := 5 }
  else if s.txb = 5 then
    if ¬dbg_done s then { d with dbg_go := false, txb := 6 } else d
  else if s.txb = 6 then
    if dbg_done s then
      let d := { d with txBlock :=
                   (setBits d.txBlock 24 8 (i.ack + (if i.perr then 8 else 0))) % 2 ^ 112 }
      if i.ack = 2 then
        { d with txb := if s.retries < s.waitRetry then 4 else 7 }
      else
        let d := if ¬i.ignoreData ∧ s.dbg_rnw then
                   { d with ram_adr := (s.ram_adr + 1) % 128 }
                 else d
        if i.again then { d with retries := 0, dbg_go := true, txb := 5 }
        else
          let d := { d with transferCount := (s.transferCount + 65535) % 65536 }
          if i.ack = 1 ∧ ¬i.perr ∧ s.transferCount > 1 then
            { d with retries := 0,
                     txBlock := (setBits d.txBlock 8 16 (sel s.txBlock 8 16 + 1)) % 2 ^ 112,
                     txb := if s.dbg_rnw then 4 else 0 }
          else if i.postedMode then
            { d with dbg_rnw := true, retries := 0, dbg_apndp := false,
                     dbg_addr32 := 3, txb := 4 }
          else { d with txb := 7 }
    else d
  else if s.txb = 7 ∨ s.txb = 8 ∨ s.txb = 9 ∨ s.txb = 10 then
    if i.si_ready then
      { d with si_payload := byteGet s.txBlock (s.txb - 7), si_valid := true,
               txb := (s.txb + 1) % 32,
               si_last := i.isV2 ∧ s.txb = 10 ∧ s.dbg_rnw = false }
    else d
  else if s.txb = 11 then
    { d with txb := 0, txedLen := (s.ram_adr * 4 + 4) % 512, fsm := .UPLOAD_RXED_DATA }
  else d

/-- Handler `RESP_Transfer_Complete` (state `UPLOAD_RXED_DATA`): drain the
words collected in `tfrram` to the host. -/
def RESP_Transfer_Complete (s : DapState) (i : DapInputs) (d : DapState) : DapState :=
  let d := { d with busy := true }
  if s.txb = 0 then
    if s.ram_adr ≠ 0 then
      { d with transferCount := s.ram_adr, ram_adr := 0, txb := 1 }
    else { d with txb := 7 }
  else if s.txb = 1 then { d with txb := 2 }
  else if s.txb = 2 then
    { d with transferCount := (s.transferCount + 65535) % 65536,
             si_payload := byteGet s.ram_dat_r 0, txb := 3 }
  else if s.txb = 3 ∨ s.txb = 4 ∨ s.txb = 5 ∨ s.txb = 6 then
    let d := { d with si_valid := true }
    if i.si_ready ∧ s.si_valid then
      { d with txb := (s.txb + 1) % 32, si_payload := byteGet s.ram_dat_r (s.txb - 2),
               si_last := i.isV2 ∧ s.transferCount = 0 ∧ s.txb = 5,
               si_valid := s.txb ≠ 6 }
    else d
  else if s.txb = 7 then
    if i.si_ready then
      if s.transferCount = 0 then
        if i.isV2 then { d with fsm := .IDLE } else { d with fsm := .V1PACKETFILL }
      else { d with txb := 1, ram_adr := (s.ram_adr + 1) % 128 }
    else d
  else d

/-- Handler `RESP_JTAG_Sequence_Setup`. -/
def RESP_JTAG_Sequence_Setup (s : DapState) (i : DapInputs) (d : DapState) : DapState :=
  { d with seqCount := byteGet s.rxBlock 1, dbg_dwrite := 0, txedLen := 2,
           dbg_pinsin := 0x1710, dbg_command := CMD_PINS_WRITE, txb := 0,
           fsm := .DAP_JTAG_Sequence_PROCESS }

/-- Handler `RESP_JTAG_Sequence_PROCESS` (state `DAP_JTAG_Sequence_PROCESS`). -/
def RESP_JTAG_Sequence_Process (s : DapState) (i : DapInputs) (d : DapState) : DapState :=
  let d := { d with busy := true, si_valid := false, can := false }
  if s.txb = 0 then
    if i.si_ready then
      { d with si_payload := DAP_JTAG_Sequence, si_last := false, si_valid := true,
               pendingTx := 0, txb := if s.seqCount ≠ 0 then 1 else 7 }
    else d
  else if s.txb = 1 then
    if i.so_valid ∧ ¬s.busy then
      { d with seqCount := (s.seqCount + 255) % 256,
               tckCycles := sel i.so_payload 0 6,
               dbg_pinsin := (setBits d.dbg_pinsin 1 1 (sel i.so_payload 6 1)) % 65536,
               tdotgt := if bitGet i.so_payload 7 then
                           (if sel i.so_payload 0 6 ≠ 0 then sel i.so_payload 0 6 else 0x40)
                         else 0,
               txb := 2 }
    else { d with busy := false }
  else if s.txb = 2 then
    if i.so_valid ∧ ¬s.busy then
      { d with tdiData := i.so_payload, tdiCount := 0, txb := 3 }
    else { d with busy := false }
  else if s.txb = 3 then
    { d with dbg_pinsin :=
               (setBits (setBits d.dbg_pinsin 2 1 (if bitGet s.tdiData s.tdiCount then 1 else 0))
                 0 1 0) % 65536,
             dbg_go := true, txb := 4 }
  else if s.txb = 4 then
    let d := if ¬dbg_done s then { d with dbg_go := false } else d
    if ¬s.dbg_go ∧ dbg_done s then
      { d with dbg_pinsin := (setBits d.dbg_pinsin 0 1 1) % 65536, dbg_go := true, txb := 5 }
    else d
  else if s.txb = 5 then
    let d := if ¬dbg_done s then { d with dbg_go := false } else d
    if ¬s.dbg_go ∧ dbg_done s then
      let d := { d with tckCycles := (s.tckCycles + 63) % 64,
                        tdiCount := (s.tdiCount + 1) % 16, txb := 6 }
      if s.tdotgt ≠ 0 then
        { d with can := bitGet i.pinsout 3,
                 tdoBuild := (setBits d.tdoBuild s.tdoCount 1 (sel i.pinsout 3 1)) % 256,
                 tdoCount := (s.tdoCount + 1) % 16,
                 tdotgt := (s.tdotgt + 127) % 128 }
      else d
    else d
  else if s.txb = 6 then
    if (s.tdotgt = 0 ∧ s.tdoCount ≠ 0) ∨ s.tdoCount = 8 then
      if i.si_ready then
        { d with si_payload := s.pendingTx, si_valid := true, pendingTx := s.tdoBuild,
                 tdoCount := 0, tdoBuild := 0, txedLen := (s.txedLen + 1) % 512 }
      else d
    else
      if s.tckCycles = 0 then { d with txb := if s.seqCount ≠ 0 then 1 else 7 }
      else { d with txb := if s.tdiCount = 8 then 2 else 3 }
  else if s.txb = 7 then
    if i.si_ready then
      { d with si_payload := s.pendingTx, si_last := i.isV2 ∨ s.txedLen = 64,
               si_valid := true, txb := 8 }
    else d
  else if s.txb = 8 then
    if i.isV2 ∨ s.txedLen = 64 then { d with fsm := .IDLE } else { d with fsm := .V1PACKETFILL }
  else d

/-- Body of the `IDLE` state: classify the first byte of a new packet. -/
def stIDLE (s : DapState) (i : DapInputs) (d : DapState) : DapState :=
  let d := { d with txedLen := 0, busy := false }
  if i.so_valid ∧ ¬s.busy ∧ i.so_first then
    let d := { d with fsm := .ProtocolError, rxedLen := 1,
                      rxBlock := (byteSet d.rxBlock 0 i.so_payload) % 2 ^ 56,
                      txBlock := (setBits d.txBlock 0 16 i.so_payload) % 2 ^ 112,
                      txLen := 2 }
    let p := i.so_payload
    if p = DAP_Disconnect ∨ p = DAP_ResetTarget ∨ p = DAP_SWO_Status ∨
       p = DAP_TransferAbort then
      { d with rxLen := 1, busy := true, fsm := .RxParams }
    else if p = DAP_Info ∨ p = DAP_Connect ∨ p = DAP_SWD_Configure ∨
            p = DAP_SWO_Transport ∨ p = DAP_SWJ_Sequence ∨ p = DAP_SWO_Mode ∨
            p = DAP_SWO_Control ∨ p = DAP_SWO_ExtendedStatus ∨
            p = DAP_JTAG_IDCODE ∨ p = DAP_JTAG_Sequence then
      let d := { d with rxLen := 2 }
      if ¬i.so_last then { d with fsm := .RxParams } else d
    else if p = DAP_HostStatus ∨ p = DAP_SWO_Data ∨ p = DAP_Delay ∨
            p = DAP_JTAG_Configure ∨ p = DAP_Transfer then
      let d := { d with rxLen := 3 }
      if ¬i.so_last then { d with fsm := .RxParams } else d
    else if p = DAP_SWO_Baudrate ∨ p = DAP_SWJ_Clock ∨ p = DAP_TransferBlock then
      let d := { d with rxLen := 5 }
      if ¬i.so_last then { d with fsm := .RxParams } else d
    else if p = DAP_WriteABORT ∨ p = DAP_TransferConfigure then
      let d := { d with rxLen := 6 }
      if ¬i.so_last then { d with fsm := .RxParams } else d
    else if p = DAP_SWJ_Pins then
      let d := { d with rxLen := 7 }
      if ¬i.so_last then { d with fsm := .RxParams } else d
    else if p = DAP_SWD_Sequence then
      if ¬i.so_last then { d with fsm := .DAP_SWD_Sequence_GetCount } else d
    else if p = DAP_ExecuteCommands then
      if ¬i.so_last then { d with fsm := .DAP_ExecuteCommands_GetNum } else d
    else if p = DAP_QueueCommands then
      if ¬i.so_last then { d with fsm := .DAP_QueueCommands_GetNum } else d
    else RESP_Invalid s i d
  else d

/-- Body of the `RESPOND` state: drain `txBlock` to the host.  The source
writes `last` as `isV2 & (txedLen == txLen - 1)`; on the 9-bit unsigned
`txLen` this is equivalent to `txedLen + 1 = txLen` (for `txLen = 0` the
nMigen comparison is against the wrapped value and this branch is anyway
unreachable since it requires `txedLen < txLen`). -/
def stRESPOND (s : DapState) (i : DapInputs) (d : DapState) : DapState :=
  if s.txedLen < s.txLen then
    let d := { d with si_valid := true, si_payload := byteGet s.txBlock s.txedLen,
                      si_last := i.isV2 ∧ s.txedLen + 1 = s.txLen }
    if i.si_ready ∧ s.si_valid then
      { d with txedLen := (s.txedLen + 1) % 512, si_valid := false }
    else d
  else if i.isV2 ∨ s.txedLen = DAP_V1_MAX_PACKET_SIZE then
    { d with si_valid := false, busy := false, fsm := .IDLE }
  else { d with fsm := .V1PACKETFILL }

/-- Body of the `V1PACKETFILL` state: pad a V1 packet with zeros.  The two
bare tuples `self.streamIn.valid.eq(0), self.busy.eq(0)` in the source's
terminal branches are Python expressions never added to a domain and
therefore have no effect. -/
def stV1PACKETFILL (s : DapState) (i : DapInputs) (d : DapState) : DapState :=
  if s.txedLen < DAP_V1_MAX_PACKET_SIZE then
    let d := { d with si_valid := true, si_payload := 0 }
    if s.txedLen < DAP_V1_MAX_PACKET_SIZE - 1 then
      if i.si_ready ∧ s.si_valid then
        { d with txedLen := (s.txedLen + 1) % 512, si_valid := false }
      else d
    else { d with fsm := .IDLE }
  else { d with fsm := .IDLE }

/-- Body of the `RxParams` state: collect declared parameter bytes, then
dispatch; a foreshortened packet is answered with `RESP_Invalid`. -/
def stRxParams (s : DapState) (i : DapInputs) (d : DapState) : DapState :=
  if s.rxedLen = s.rxLen then
    let c := byteGet s.rxBlock 0
    if c = DAP_Info then RESP_Info s i d
    else if c = DAP_HostStatus then RESP_HostStatus s i d
    else if c = DAP_Connect then RESP_Connect_Setup s i d
    else if c = DAP_Disconnect then RESP_Disconnect s i d
    else if c = DAP_WriteABORT then RESP_WriteABORT s i d
    else if c = DAP_Delay then RESP_Delay s i d
    else if c = DAP_ResetTarget then RESP_ResetTarget s i d
    else if c = DAP_SWJ_Pins then RESP_SWJ_Pins_Setup s i d
    else if c = DAP_SWJ_Clock then RESP_SWJ_Clock s i d
    else if c = DAP_SWJ_Sequence then RESP_SWJ_Sequence_Setup s i d
    else if c = DAP_SWD_Configure then RESP_SWD_Configure s i d
    else if c = DAP_SWO_Transport then RESP_Not_Implemented s i d
    else if c = DAP_SWO_Mode then RESP_Not_Implemented s i d
    else if c = DAP_SWO_Baudrate then RESP_Not_Implemented s i d
    else if c = DAP_SWO_Control then RESP_Not_Implemented s i d
    else if c = DAP_SWO_Status then RESP_Not_Implemented s i d
    else if c = DAP_SWO_ExtendedStatus then RESP_Not_Implemented s i d
    else if c = DAP_SWO_Data then RESP_Not_Implemented s i d
    else if c = DAP_JTAG_Sequence then RESP_JTAG_Sequence_Setup s i d
    else if c = DAP_JTAG_Configure then RESP_JTAG_Configure s i d
    else if c = DAP_JTAG_IDCODE then RESP_JTAG_IDCODE_Setup s i d
    else if c = DAP_TransferConfigure then RESP_TransferConfigure s i d
    else if c = DAP_Transfer then RESP_Transfer_Setup s i d
    else if c = DAP_TransferBlock then RESP_TransferBlock_Setup s i d
    else RESP_Invalid s i d
  else if i.so_valid ∧ ¬s.busy then
    let d := { d with rxBlock := (byteSet d.rxBlock s.rxedLen i.so_payload) % 2 ^ 56,
                      rxedLen := (s.rxedLen + 1) % 8 }
    let d := if s.rxedLen + 1 = s.rxLen then { d with busy := true } else d
    if i.so_last then
      if s.rxedLen + 1 ≠ s.rxLen then RESP_Invalid s i d else d
    else d
  else d

/-- Global synchronous logic outside the FSM: the `streamIn.valid` default,
the done CDC shift register, and the transfer RAM (whose write enable is the
rising edge `done_cdc == 0b10` and whose write data is combinationally
`dbgif.dread` inside the two transfer-process states and 0 elsewhere; the
synchronous read port registers `mem[adr]`, transparently to the write). -/
def tick (s : DapState) (i : DapInputs) : DapState :=
  let dat_w := if s.fsm = .DAP_Transfer_PROCESS ∨ s.fsm = .DAP_TransferBlock_PROCESS
               then i.dread else 0
  let mem2 := if s.done_cdc = 2 then
                (fun a => if a = s.ram_adr then dat_w else s.ram_mem a)
              else s.ram_mem
  { s with done_cdc := (if i.done then 2 else 0) + s.done_cdc / 2,
           ram_mem := mem2,
           ram_dat_r := mem2 s.ram_adr,
           si_valid := false }

/-- Width normalisation of the input signals (8-bit payload, 3-bit ack,
32-bit read data, 16-bit pin readback). -/
def normIn (i : DapInputs) : DapInputs :=
  { i with so_payload := i.so_payload % 256, ack := i.ack % 8,
           dread := i.dread % 2 ^ 32, pinsout := i.pinsout % 65536 }

/-- One synchronous clock edge of the `CMSIS_DAP` module. -/
def step (s : DapState) (i0 : DapInputs) : DapState :=
  let i := normIn i0
  let d := tick s i
  match s.fsm with
  | .IDLE => stIDLE s i d
  | .RESPOND => stRESPOND s i d
  | .V1PACKETFILL => stV1PACKETFILL s i d
  | .RxParams => stRxParams s i d
  | .DAP_SWJ_Pins_PROCESS => RESP_SWJ_Pins_Process s i d
  | .DAP_SWO_Data_PROCESS => RESP_Not_Implemented s i d
  | .DAP_SWJ_Sequence_PROCESS => RESP_SWJ_Sequence_Process s i d
  | .DAP_JTAG_Sequence_PROCESS => RESP_JTAG_Sequence_Process s i d
  | .DAP_Transfer_PROCESS => RESP_Transfer_Process s i d
  | .DAP_TransferBlock_PROCESS => RESP_TransferBlock_Process s i d
  | .UPLOAD_RXED_DATA => RESP_Transfer_Complete s i d
  | .JTAG_IDCODE_Process => RESP_JTAG_IDCODE_Process s i d
  | .DAP_SWD_Sequence_GetCount => RESP_Invalid s i d
  | .DAP_TransferBlock_State => RESP_Invalid s i d
  | .DAP_ExecuteCommands_GetNum => RESP_Invalid s i d
  | .DAP_QueueCommands_GetNum => RESP_Invalid s i d
  | .DAP_Wait_Done => RESP_Wait_Done s i d
  | .DAP_Wait_Connect_Done => RESP_Wait_Connect_Done s i d
  | .Error => RESP_Invalid s i d
  | .ProtocolError => RESP_Invalid s i d

/-!  A deterministic test harness for closed, end-to-end runs.  The harness
plays the two collaborators specified at the interface boundary: the host
byte stream (a queue of bytes with first/last markers, presented with a
valid/ready handshake and an always-ready sink) and the `DBGIF` transactor
(idle with `done` high; when it observes `go` high while idle it accepts the
command by dropping `done` for a fixed number of cycles, then completes by
raising `done` again, presenting the scripted result of the current
transaction on its result signals).  The harness also logs every byte
transferred on `streamIn` and every rising edge of `go`. -/

/-- Scripted result of one debug transaction. -/
structure TransResult where
  ack : Nat
  perr : Bool
  again : Bool
  postedMode : Bool
  ignoreData : Bool
  dread : Nat

/-- Harness state: pending host bytes `(payload, first, last)`, scripted
transaction results, the number of transactions started so far, the
transactor's `done` line and remaining busy cycles, the framing variant, the
log of bytes accepted by the host, and counters of `go` rising edges (all
commands, and `CMD_TRANSACT` only). -/
structure EnvState where
  hostQ : List (Nat × Bool × Bool)
  results : List TransResult
  tIdx : Nat
  done : Bool
  busyCnt : Nat
  isV2 : Bool
  outLog : List (Nat × Bool)
  goEdges : Nat
  tfrIssues : Nat

/-- Result currently presented by the transactor (the default is an OK ack
with zero data, presented before any transaction has started). -/
def curRes (e : EnvState) : TransResult :=
  e.results.getD (e.tIdx - 1) ⟨1, false, false, false, false, 0⟩

/-- Inputs presented to the core in harness state `e`. -/
def envInputs (e : EnvState) : DapInputs :=
  { so_valid := ¬e.hostQ.isEmpty
    so_payload := (e.hostQ.headD (0, false, false)).1
    so_first := (e.hostQ.headD (0, false, false)).2.1
    so_last := (e.hostQ.headD (0, false, false)).2.2
    si_ready := true
    isV2 := e.isV2
    done := e.done
    ack := (curRes e).ack
    perr := (curRes e).perr
    again := (curRes e).again
    postedMode := (curRes e).postedMode
    ignoreData := (curRes e).ignoreData
    dread := (curRes e).dread
    pinsout := 0 }

/-- Harness update after a clock edge taking the core from `s` to `s2` under
inputs `i`. -/
def envStep (e : EnvState) (s : DapState) (i : DapInputs) (s2 : DapState) : EnvState :=
  let q := if i.so_valid ∧ ¬s.busy then e.hostQ.tail else e.hostQ
  let log := if s.si_valid ∧ i.si_ready then e.outLog ++ [(s.si_payload, s.si_last)]
             else e.outLog
  let e := { e with hostQ := q, outLog := log }
  let e :=
    if e.busyCnt > 0 then
      { e with done := e.busyCnt = 1, busyCnt := e.busyCnt - 1 }
    else if s.dbg_go ∧ e.done then
      { e with done := false, busyCnt := 4, tIdx := e.tIdx + 1 }
    else e
  { e with goEdges := if ¬s.dbg_go ∧ s2.dbg_go then e.goEdges + 1 else e.goEdges,
           tfrIssues := if ¬s.dbg_go ∧ s2.dbg_go ∧ s2.dbg_command = CMD_TRANSACT
                        then e.tfrIssues + 1 else e.tfrIssues }

/-- One combined core + harness cycle. -/
def simStep : DapState × EnvState → DapState × EnvState :=
  fun p =>
    let i := envInputs p.2
    let s2 := step p.1 i
    (s2, envStep p.2 p.1 i s2)

/-- Run `n` combined cycles. -/
def simRun : Nat → DapState × EnvState → DapState × EnvState
  | 0, p => p
  | n + 1, p => simRun n (simStep p)

/-- Fresh harness state for a host-byte script and a transaction-result
script under the chosen framing variant. -/
def envInit (q : List (Nat × Bool × Bool)) (rs : List TransResult) (v2 : Bool) : EnvState :=
  { hostQ := q, results := rs, tIdx := 0, done := true, busyCnt := 0, isV2 := v2,
    outLog := [], goEdges := 0, tfrIssues := 0 }

/-- Scripted OK transaction result carrying read data `d`. -/
def okRes (d : Nat) : TransResult := ⟨1, false, false, false, false, d⟩

/-- Scripted WAIT transaction result. -/
def waitRes : TransResult := ⟨2, false, false, false, false, 0⟩

/-- Host script: `DAP_Transfer` with index 0 and transfer count 0. -/
def scriptTransfer0 : List (Nat × Bool × Bool) :=
  [(DAP_Transfer, true, false), (0, false, false), (0, false, true)]

/-- Host script: `DAP_Info` asking for the maximum packet size (id 0xFF). -/
def scriptInfoFF : List (Nat × Bool × Bool) :=
  [(DAP_Info, true, false), (0xFF, false, true)]

/-- Host script: `DAP_Info` with the unrecognized info id 0xEE. -/
def scriptInfoBad : List (Nat × Bool × Bool) :=
  [(DAP_Info, true, false), (0xEE, false, true)]

/-- Host script: a foreshortened `DAP_Transfer` packet (declared length 3,
end-of-packet after 2 bytes). -/
def scriptShort : List (Nat × Bool × Bool) :=
  [(DAP_Transfer, true, false), (0, false, true)]

/-- Host script: `DAP_TransferBlock`, index 0, 2 transfers, all-read request
byte 0x02. -/
def scriptBlock2 : List (Nat × Bool × Bool) :=
  [(DAP_TransferBlock, true, false), (0, false, false), (2, false, false),
   (0, false, false), (0x02, false, true)]

/-- Host script: `DAP_Transfer`, index 0, 1 transfer, read request 0x02. -/
def scriptTfr1 : List (Nat × Bool × Bool) :=
  [(DAP_Transfer, true, false), (0, false, false), (1, false, false),
   (0x02, false, true)]

/-- Host script: `DAP_TransferConfigure` with `waitRetry = 2`,
`matchRetry = 0`, followed by `DAP_Transfer` with one read request. -/
def scriptCfgWaitTfr : List (Nat × Bool × Bool) :=
  [(DAP_TransferConfigure, true, false), (0, false, false), (2, false, false),
   (0, false, false), (0, false, false), (0, false, true),
   (DAP_Transfer, true, false), (0, false, false), (1, false, false),
   (0x02, false, true)]

/-- Host script: `DAP_TransferConfigure` with `waitRetry = 2`,
`matchRetry = 0`, followed by `DAP_TransferBlock` with one read request. -/
def scriptCfgWaitBlk : List (Nat × Bool × Bool) :=
  [(DAP_TransferConfigure, true, false), (0, false, false), (2, false, false),
   (0, false, false), (0, false, false), (0, false, true),
   (DAP_TransferBlock, true, false), (0, false, false), (1, false, false),
   (0, false, false), (0x02, false, true)]

/-- Host script: `DAP_TransferConfigure` with `waitRetry = 0`,
`matchRetry = 2`, followed by a `DAP_Transfer` match-value read request
(request byte 0x12 = read with bit 4 set) for match value 5. -/
def scriptCfgMatch : List (Nat × Bool × Bool) :=
  [(DAP_TransferConfigure, true, false), (0, false, false), (0, false, false),
   (0, false, false), (2, false, false), (0, false, true),
   (DAP_Transfer, true, false), (0, false, false), (1, false, false),
   (0x12, false, false), (5, false, false), (0, false, false),
   (0, false, false), (0, false, true)]

/-- Host script: `DAP_JTAG_IDCODE` for device index 0. -/
def scriptIdcode : List (Nat × Bool × Bool) :=
  [(DAP_JTAG_IDCODE, true, false), (0, false, true)]

/-- Transaction-result script: one configuration command result followed by
an unbounded-enough supply of WAIT acks. -/
def resultsWait : List TransResult :=
  [okRes 0, waitRes, waitRes, waitRes, waitRes, waitRes]

/-- Transaction-result script: one configuration command result followed by
OK reads whose data never matches the requested match value. -/
def resultsMismatch : List TransResult :=
  [okRes 0, okRes 7, okRes 7, okRes 7]

/-- A quiescent input vector: no host byte offered, host sink ready, V2
framing, transactor idle with `done` high and an OK result presented. -/
def idleIn : DapInputs :=
  { so_valid := false, so_payload := 0, so_first := false, so_last := false,
    si_ready := true, isV2 := true, done := true, ack := 1, perr := false,
    again := false, postedMode := false, ignoreData := false, dread := 0,
    pinsout := 0 }

/-- The command ids the firmware supports (dispatched to a real handler or a
deliberate not-implemented response, rather than to `RESP_Invalid`):
everything in the dispatcher's table except `DAP_TransferAbort`,
`DAP_SWD_Sequence`, `DAP_ExecuteCommands` and `DAP_QueueCommands`. -/
def supportedCmds : List Nat :=
  [DAP_Info, DAP_HostStatus, DAP_Connect, DAP_Disconnect, DAP_WriteABORT,
   DAP_Delay, DAP_ResetTarget, DAP_SWJ_Pins, DAP_SWJ_Clock, DAP_SWJ_Sequence,
   DAP_SWD_Configure, DAP_SWO_Transport, DAP_SWO_Mode, DAP_SWO_Baudrate,
   DAP_SWO_Control, DAP_SWO_Status, DAP_SWO_ExtendedStatus, DAP_SWO_Data,
   DAP_JTAG_Sequence, DAP_JTAG_Configure, DAP_JTAG_IDCODE,
   DAP_TransferConfigure, DAP_Transfer, DAP_TransferBlock]

/-- Parameter bytes accepted by the handler of command `c` (the conditions
under which no handler falls through to `RESP_Invalid`): `DAP_Info` needs a
recognized info id, `DAP_HostStatus` a type byte 0 or 1, `DAP_Connect` a
port byte 0, 1 or 2; every other supported command accepts all parameters. -/
def paramsAccepted (c rx : Nat) : Prop :=
  (c = DAP_Info →
    byteGet rx 1 ∈ ([0x01, 0x02, 0x03, 0x05, 0x06, 0x07, 0x08, 0x04, 0x09,
                     0xF0, 0xF1, 0xFD, 0xFE, 0xFF] : List Nat)) ∧
  (c = DAP_HostStatus → byteGet rx 1 = 0 ∨ byteGet rx 1 = 1) ∧
  (c = DAP_Connect → byteGet rx 1 < 3)

/-- Drain invariant: in the `RESPOND` state the number of response bytes
sent never exceeds the number to send; in all states that can reach
`RESPOND` without freshly loading `txLen`/`txedLen` the sent counter is
still 0.  (The direct-streaming transfer/JTAG paths reuse `txedLen` as a
plain byte tally and are exempt: they never enter `RESPOND`.) -/
def drainInv (s : DapState) : Prop :=
  (s.fsm = .RESPOND → s.txedLen ≤ s.txLen) ∧
  (s.fsm = .RxParams ∨ s.fsm = .ProtocolError ∨ s.fsm = .Error ∨
   s.fsm = .DAP_SWD_Sequence_GetCount ∨ s.fsm = .DAP_TransferBlock_State ∨
   s.fsm = .DAP_ExecuteCommands_GetNum ∨ s.fsm = .DAP_QueueCommands_GetNum ∨
   s.fsm = .DAP_Wait_Done ∨ s.fsm = .DAP_Wait_Connect_Done ∨
   s.fsm = .DAP_SWJ_Pins_PROCESS ∨ s.fsm = .DAP_SWJ_Sequence_PROCESS ∨
   s.fsm = .JTAG_IDCODE_Process ∨ s.fsm = .DAP_SWO_Data_PROCESS →
   s.txedLen = 0)

/-- Closed run for claim C4: `DAP_Transfer` with count 0 under V2 framing. -/
def simC4 : DapState × EnvState := simRun 40 (dapInit, envInit scriptTransfer0 [] true)

/-- Closed run for claim C5: a foreshortened packet under V2 framing. -/
def simC5 : DapState × EnvState := simRun 30 (dapInit, envInit scriptShort [] true)

/-- Closed run for claim C1's counterexample: `DAP_Info` with an
unrecognized info id. -/
def simC1bad : DapState × EnvState := simRun 30 (dapInit, envInit scriptInfoBad [] true)

/-- Closed run for claim C6 under V2 framing: `DAP_TransferBlock` with two
reads answered OK with distinct data. -/
def simC6v2 : DapState × EnvState :=
  simRun 120 (dapInit, envInit scriptBlock2 [okRes 0x11223344, okRes 0x55667788] true)

/-- Closed run for claim C6 under V1 framing. -/
def simC6v1 : DapState × EnvState :=
  simRun 150 (dapInit, envInit scriptBlock2 [okRes 0x11223344, okRes 0x55667788] false)

/-- Closed run for claim C2: `waitRetry = 2`, then a `DAP_Transfer` read
answered WAIT forever. -/
def simC2tfr : DapState × EnvState := simRun 200 (dapInit, envInit scriptCfgWaitTfr resultsWait true)

/-- Closed run for claim C2's counterexample: `waitRetry = 2`, then a
`DAP_TransferBlock` read answered WAIT forever. -/
def simC2blk : DapState × EnvState := simRun 200 (dapInit, envInit scriptCfgWaitBlk resultsWait true)

/-- Closed run for claim C3: `matchRetry = 2`, then a `DAP_Transfer`
match-value read whose result never matches. -/
def simC3run : DapState × EnvState := simRun 200 (dapInit, envInit scriptCfgMatch resultsMismatch true)

/-- Closed run for claim C8, stopped while the core sits in
`JTAG_IDCODE_Process` with `go` just asserted and the transactor still
idle (`done` high throughout). -/
def simC8a : DapState := (simRun 3 (dapInit, envInit scriptIdcode [] true)).1

/-- One cycle later than `simC8a`. -/
def simC8b : DapState := (simRun 4 (dapInit, envInit scriptIdcode [] true)).1

/-- Closed run for claim C9's counterexample, stopped in
`UPLOAD_RXED_DATA` right after a one-read `DAP_Transfer`. -/
def simC9 : DapState := (simRun 19 (dapInit, envInit scriptTfr1 [okRes 0xCAFEF00D] true)).1

/-- The payload of the first byte transferred on the `streamIn` handshake
(`valid ∧ ready`) during a run of the machine over a list of per-cycle
inputs. -/
def firstOut : DapState → List DapInputs → Option Nat
  | _, [] => none
  | s, i :: l =>
      if s.si_valid = true ∧ i.si_ready = true then some s.si_payload
      else firstOut (step s i) l

/-- Echo invariant for command id `c`: from dispatch until the first
response byte is handed to the host, response-buffer byte 0 holds `c` and
the machine is in a pre-first-emission configuration of one of the response
paths (the `RESPOND` drain, the wait states that lead to it, or one of the
direct-streaming engines), with the presented byte, if any, equal to `c`. -/
def EchoInv (c : Nat) (s : DapState) : Prop :=
  byteGet s.txBlock 0 = c ∧
  ((s.fsm = .RESPOND ∧ s.txedLen = 0 ∧ 1 ≤ s.txLen ∧
      (s.si_valid = false ∨ s.si_payload = c)) ∨
   (s.fsm = .DAP_Wait_Done ∧ s.si_valid = false ∧ s.txedLen = 0 ∧ 1 ≤ s.txLen) ∨
   (s.fsm = .DAP_Wait_Connect_Done ∧ s.si_valid = false ∧ s.txedLen = 0 ∧ 1 ≤ s.txLen) ∨
   (s.fsm = .DAP_SWJ_Pins_PROCESS ∧ s.si_valid = false ∧ s.txedLen = 0 ∧ 1 ≤ s.txLen) ∨
   (s.fsm = .DAP_SWJ_Sequence_PROCESS ∧ s.si_valid = false ∧ s.txedLen = 0 ∧ 1 ≤ s.txLen) ∨
   (s.fsm = .JTAG_IDCODE_Process ∧ s.si_valid = false ∧ s.txedLen = 0 ∧ 1 ≤ s.txLen) ∨
   (s.fsm = .DAP_Transfer_PROCESS ∧
      ((s.txb ≤ 8 ∧ s.si_valid = false) ∨
       (s.txb = 9 ∧ s.si_valid = true ∧ s.si_payload = c))) ∨
   (s.fsm = .DAP_TransferBlock_PROCESS ∧
      ((s.txb ≤ 7 ∧ s.si_valid = false) ∨
       (s.txb = 8 ∧ s.si_valid = true ∧ s.si_payload = c))) ∨
   (s.fsm = .DAP_JTAG_Sequence_PROCESS ∧ c = DAP_JTAG_Sequence ∧
      ((s.txb = 0 ∧ s.si_valid = false) ∨
       ((s.txb = 1 ∨ s.txb = 7) ∧ s.si_valid = true ∧ s.si_payload = c))))

/-- A host data byte offered to the core, with the sink ready. -/
def hostByte (p : Nat) : DapInputs := { idleIn with so_valid := true, so_payload := p }

/-- An idle cycle during which the transactor holds `done` low. -/
def noTgt : DapInputs := { idleIn with done := false }

/-- A dispatch-ready state holding the fully received `DAP_Transfer` packet
`[0x05, 0x00, 0x01]` (one read request) with the echoed id in response
byte 0, as the `IDLE`/`RxParams` path leaves it. -/
def tfrEchoState : DapState :=
  { dapInit with fsm := .RxParams, rxLen := 3, rxedLen := 3,
                 rxBlock := 0x010005, txBlock := 5, txLen := 2 }

/-- Input schedule driving a dispatched single-read `DAP_Transfer` through
its request byte, the transaction handshake and the first streamed response
byte. -/
def tfrEchoInputs : List DapInputs :=
  [idleIn, hostByte 2, hostByte 2, idleIn, noTgt, noTgt, idleIn, idleIn,
   idleIn, idleIn, idleIn]


end CmsisDap

/-! ## Theorems -/

namespace CmsisDap

theorem byteGet0_eq_mod (n : Nat) : byteGet n 0 = n % 256 := by
  simp [byteGet, sel]

theorem byteGet0_setBits (n off w v : Nat) (h : 8 ≤ off) :
    byteGet (setBits n off w v) 0 = byteGet n 0 := by
  obtain ⟨k, rfl⟩ := Nat.exists_eq_add_of_le h
  have h1 : (2 : Nat) ^ (8 + k) = 2 ^ k * 256 := by rw [pow_add]; ring
  have h2 : (2 : Nat) ^ (8 + k + w) = 2 ^ (k + w) * 256 := by
    rw [show 8 + k + w = 8 + (k + w) from by omega, pow_add]; ring
  simp only [byteGet0_eq_mod, setBits, h1, h2]
  rw [show n % (2 ^ k * 256) + v % 2 ^ w * (2 ^ k * 256) +
        n / (2 ^ (k + w) * 256) * (2 ^ (k + w) * 256)
      = n % (2 ^ k * 256) +
        (v % 2 ^ w * 2 ^ k + n / (2 ^ (k + w) * 256) * 2 ^ (k + w)) * 256 from by ring]
  rw [Nat.add_mul_mod_self_right]
  exact Nat.mod_mod_of_dvd n ⟨2 ^ k, by ring⟩

theorem byteGet0_mod_pow (x k : Nat) (h : 8 ≤ k) :
    byteGet (x % 2 ^ k) 0 = byteGet x 0 := by
  simp only [byteGet0_eq_mod]
  exact Nat.mod_mod_of_dvd x (by
    have : (2 : Nat) ^ 8 ∣ 2 ^ k := pow_dvd_pow 2 h
    simpa using this)

theorem byteGet0_byteSet (n j v : Nat) (h : 1 ≤ j) :
    byteGet (byteSet n j v) 0 = byteGet n 0 :=
  byteGet0_setBits n (8 * j) 8 v (by omega)

/-- C4: a `DAP_Transfer` command with transfer count 0 produces exactly the
three bytes `[id, 0, 1]` (command id, count 0, status 1, with the V2 end
marker on the last byte), the machine returns to `IDLE`, and the `go` line
to the transactor is never raised. -/
theorem transfer_count_zero_three_bytes_no_transaction :
    simC4.2.outLog = [(DAP_Transfer, false), (0, false), (1, true)] ∧
    simC4.2.goEdges = 0 ∧ simC4.1.fsm = .IDLE := by
  refine ⟨by decide, by decide, by decide⟩

/-- C7: dispatching a fully received `DAP_Info` request with info id 0xFF
loads the 16-bit packet-size field of the response with 511 when the V2
indication is active and with 64 otherwise, sets the response length to 6
and proceeds to `RESPOND`. -/
theorem info_max_packet_size (s : DapState) (i : DapInputs)
    (hf : s.fsm = .RxParams) (hl : s.rxedLen = s.rxLen)
    (hc : byteGet s.rxBlock 0 = DAP_Info) (hr : byteGet s.rxBlock 1 = 0xFF) :
    sel (step s i).txBlock 16 16 =
      (if i.isV2 then DAP_V2_MAX_PACKET_SIZE else DAP_V1_MAX_PACKET_SIZE) ∧
    (step s i).txLen = 6 ∧ (step s i).fsm = .RESPOND := by
  rcases Bool.eq_false_or_eq_true i.isV2 with hv | hv <;>
    · simp only [step, normIn, stRxParams, RESP_Info, tick, hf, hl, hc, hr, hv,
        DAP_Info, DAP_V2_MAX_PACKET_SIZE, DAP_V1_MAX_PACKET_SIZE]
      norm_num
      simp [sel, setBits]
      omega

/-- Witness for `info_max_packet_size` at a concrete state. -/
theorem info_max_packet_size_witness :
    sel (step { dapInit with fsm := .RxParams, rxLen := 2, rxedLen := 2,
                             rxBlock := 0xFF00 } idleIn).txBlock 16 16 =
      DAP_V2_MAX_PACKET_SIZE := by
  have h := info_max_packet_size
    { dapInit with fsm := .RxParams, rxLen := 2, rxedLen := 2, rxBlock := 0xFF00 }
    idleIn rfl rfl (by decide) (by decide)
  simpa [idleIn] using h.1

/-- C10: dispatching a fully received `DAP_Info` request whose info id is
none of the recognized ones is answered by the generic invalid response:
the first response byte becomes the fixed marker `DAP_Invalid = 0xFF` (not
an echo of the `DAP_Info` id), the response length is 1, and the machine
proceeds to `RESPOND`. -/
theorem info_unknown_id_invalid (s : DapState) (i : DapInputs)
    (hf : s.fsm = .RxParams) (hl : s.rxedLen = s.rxLen)
    (hc : byteGet s.rxBlock 0 = DAP_Info)
    (hr : byteGet s.rxBlock 1 ∉ ([0x01, 0x02, 0x03, 0x05, 0x06, 0x07, 0x08,
        0x04, 0x09, 0xF0, 0xF1, 0xFD, 0xFE, 0xFF] : List Nat)) :
    byteGet (step s i).txBlock 0 = DAP_Invalid ∧ (step s i).txLen = 1 ∧
    (step s i).fsm = .RESPOND := by
  simp only [List.mem_cons, List.mem_singleton, not_or] at hr
  obtain ⟨h1, h2, h3, h4, h5, h6, h7, h8, h9, h10, h11, h12, h13, h14⟩ := hr
  simp only [step, normIn, stRxParams, RESP_Info, RESP_Invalid, tick, hf, hl, hc,
    DAP_Info, DAP_Invalid, h1, h2, h3, h4, h5, h6, h7, h8, h9, h10, h11, h12, h13, h14]
  norm_num
  simp [byteGet, byteSet, sel, setBits]
  omega

/-- Witness for `info_unknown_id_invalid` at info id 0xEE. -/
theorem info_unknown_id_invalid_witness :
    byteGet (step { dapInit with fsm := .RxParams, rxLen := 2, rxedLen := 2,
                                 rxBlock := 0xEE00 } idleIn).txBlock 0 = DAP_Invalid := by
  have h := info_unknown_id_invalid
    { dapInit with fsm := .RxParams, rxLen := 2, rxedLen := 2, rxBlock := 0xEE00 }
    idleIn rfl rfl (by decide) (by decide)
  exact h.1

/-- C5: when a parameter byte arrives in `RxParams` with the end-of-packet
marker set but the declared length not yet satisfied, the core prepares the
generic invalid response (fixed marker byte `0xFF`, length 1, not an echo)
and proceeds to `RESPOND`, leaving all durable configuration state
(`waitRetry`, `matchRetry`, the match mask, the connected/running flags, the
transfer count and the `go` line) unchanged; and on the closed foreshortened
run the full answer is the single byte `0xFF` with the end marker, after
which the core is back in `IDLE`. -/
theorem foreshortened_packet_generic_invalid :
    (∀ s i, s.fsm = .RxParams → s.rxedLen ≠ s.rxLen → i.so_valid = true →
      s.busy = false → i.so_last = true → s.rxedLen + 1 ≠ s.rxLen →
      (step s i).fsm = .RESPOND ∧ byteGet (step s i).txBlock 0 = DAP_Invalid ∧
      (step s i).txLen = 1 ∧
      (step s i).waitRetry = s.waitRetry ∧ (step s i).matchRetry = s.matchRetry ∧
      (step s i).mask = s.mask ∧ (step s i).connected = s.connected ∧
      (step s i).running = s.running ∧ (step s i).transferCount = s.transferCount ∧
      (step s i).dbg_go = s.dbg_go) ∧
    simC5.2.outLog = [(DAP_Invalid, true)] ∧ simC5.1.fsm = .IDLE := by
  refine ⟨?_, by decide, by decide⟩
  intro s i hf hne hv hb hl hshort
  simp only [step, normIn, stRxParams, RESP_Invalid, tick, hf, hne, hv, hb, hl, hshort]
  norm_num [hne, hshort]
  simp [byteGet, byteSet, sel, setBits, DAP_Invalid]
  omega

/-- Witness for `foreshortened_packet_generic_invalid` at a concrete
foreshortened packet. -/
theorem foreshortened_packet_generic_invalid_witness :
    (step { dapInit with fsm := .RxParams, rxLen := 3, rxedLen := 1 }
       { idleIn with so_valid := true, so_last := true }).fsm = .RESPOND := by
  exact (foreshortened_packet_generic_invalid.1
    { dapInit with fsm := .RxParams, rxLen := 3, rxedLen := 1 }
    { idleIn with so_valid := true, so_last := true }
    rfl (by decide) rfl rfl rfl (by decide)).1

/-- C1 counterexample: `DAP_Info` is a supported command id, yet the packet
`[0x00, 0xEE]` (valid framing, unrecognized info id) is answered by the
single byte `0xFF`, which is not the command id. -/
theorem command_echo_counterexample :
    DAP_Info ∈ supportedCmds ∧
    simC1bad.2.outLog = [(DAP_Invalid, true)] ∧ DAP_Invalid ≠ DAP_Info := by
  refine ⟨by decide, by decide, by decide⟩

/-- C6: a `DAP_TransferBlock` requesting 2 all-read transfers against a
transactor answering OK with distinct data per index returns the two 32-bit
words little-endian in issue order after the header `[id, count(2 LE),
status OK]`; under V2 the packet is exactly `4 + 4*2` bytes with the end
marker only on the last byte, under V1 it is padded with zero bytes to
exactly 64 bytes; exactly 2 transactions are issued. -/
theorem transferblock_reads_little_endian_framing :
    simC6v2.2.outLog =
      [(DAP_TransferBlock, false), (2, false), (0, false), (1, false),
       (0x44, false), (0x33, false), (0x22, false), (0x11, false),
       (0x88, false), (0x77, false), (0x66, false), (0x55, true)] ∧
    simC6v2.2.outLog.length = 4 + 4 * 2 ∧
    simC6v2.2.tfrIssues = 2 ∧ simC6v2.1.fsm = .IDLE ∧
    simC6v1.2.outLog =
      [(DAP_TransferBlock, false), (2, false), (0, false), (1, false),
       (0x44, false), (0x33, false), (0x22, false), (0x11, false),
       (0x88, false), (0x77, false), (0x66, false), (0x55, false)] ++
      List.replicate 52 (0, false) ∧
    simC6v1.2.outLog.length = 64 ∧ simC6v1.1.fsm = .IDLE := by
  refine ⟨by decide, by decide, by decide, by decide, by decide, by decide, by decide⟩

/-- C2 counterexample: with `waitRetry = 2` configured, a `DAP_TransferBlock`
read answered WAIT on every attempt is issued only 2 times in total (the
retry counter is incremented at issue time and compared before reissue), not
the `1 + waitRetry = 3` times the claim requires, before the WAIT status is
recorded in the response header and the batch is aborted. -/
theorem transferblock_wait_retry_counterexample :
    simC2blk.1.waitRetry = 2 ∧ simC2blk.2.tfrIssues = 2 ∧
    sel simC2blk.1.txBlock 24 8 = 2 ∧ simC2blk.1.fsm = .IDLE ∧
    simC2blk.2.tfrIssues ≠ 1 + simC2blk.1.waitRetry := by
  refine ⟨by decide, by decide, by decide, by decide, by decide⟩

/-- C2 (amended): in `DAP_Transfer`, a completed transaction reporting a
WAIT ack increments the retry counter and reissues the same request exactly
while `retries < waitRetry`, so the request is reissued exactly `waitRetry`
times (`waitRetry + 1` total issues) before the WAIT status is recorded and
the batch aborted — as the closed always-WAIT run with `waitRetry = 2`
confirms with `1 + 2` issues; in `DAP_TransferBlock` the counter is instead
incremented at issue time and compared on completion, so the request is
issued `max 1 waitRetry` times in total (one fewer reissue when
`waitRetry ≥ 1`). -/
theorem wait_retry_semantics :
    (∀ s i, s.fsm = .DAP_Transfer_PROCESS → s.txb = 7 → dbg_done s = true →
      i.ack % 8 = 2 →
      (step s i).retries = (s.retries + 1) % 65536 ∧
      (step s i).txb = (if s.retries < s.waitRetry then 5 else 8) ∧
      byteGet (step s i).txBlock 2 = (if i.perr then 10 else 2)) ∧
    (∀ s i, s.fsm = .DAP_TransferBlock_PROCESS → s.txb = 4 →
      (step s i).retries = (s.retries + 1) % 65536 ∧
      (step s i).dbg_go = true ∧ (step s i).txb = 5) ∧
    (∀ s i, s.fsm = .DAP_TransferBlock_PROCESS → s.txb = 6 → dbg_done s = true →
      i.ack % 8 = 2 →
      (step s i).retries = s.retries ∧
      (step s i).txb = (if s.retries < s.waitRetry then 4 else 7) ∧
      sel (step s i).txBlock 24 8 = (if i.perr then 10 else 2)) ∧
    (simC2tfr.1.waitRetry = 2 ∧ simC2tfr.2.tfrIssues = 1 + 2 ∧
     byteGet simC2tfr.1.txBlock 2 = 2 ∧ simC2tfr.1.fsm = .IDLE) := by
  refine ⟨?_, ?_, ?_, by decide, by decide, by decide, by decide⟩
  · intro s i hf ht hd ha
    rcases Bool.eq_false_or_eq_true i.perr with hp | hp <;>
      · simp only [step, normIn, RESP_Transfer_Process, tick, hf, ht, hd, ha, hp]
        norm_num
        simp [byteGet, byteSet, sel, setBits]
        omega
  · intro s i hf ht
    simp only [step, normIn, RESP_TransferBlock_Process, tick, hf, ht]
    norm_num
  · intro s i hf ht hd ha
    rcases Bool.eq_false_or_eq_true i.perr with hp | hp <;>
      · simp only [step, normIn, RESP_TransferBlock_Process, tick, hf, ht, hd, ha, hp]
        norm_num
        simp [byteGet, byteSet, sel, setBits]
        omega

/-- Witness for `wait_retry_semantics` at a concrete waiting state. -/
theorem wait_retry_semantics_witness :
    (step { dapInit with fsm := .DAP_Transfer_PROCESS, txb := 7, done_cdc := 3,
                         waitRetry := 2 } { idleIn with ack := 2 }).txb = 5 := by
  have h := wait_retry_semantics.1
    { dapInit with fsm := .DAP_Transfer_PROCESS, txb := 7, done_cdc := 3, waitRetry := 2 }
    { idleIn with ack := 2 } rfl rfl (by decide) (by decide)
  simpa using h.2.1

/-- C8: the `JTAG_IDCODE_Process` wait state violates the handshake
discipline: entered right after `go` was asserted while the transactor is
still idle with `done` high (so `done` never dropped), it exits to `RESPOND`
on the very next cycle with `go` still asserted — the wait state is left
although `go` is high, and `go` is never deasserted in response to a low
`done`. -/
theorem idcode_wait_state_exits_with_go_high :
    simC8a.fsm = .JTAG_IDCODE_Process ∧ simC8a.dbg_go = true ∧
    dbg_done simC8a = true ∧ simC8b.fsm = .RESPOND ∧ simC8b.dbg_go = true := by
  refine ⟨by decide, by decide, by decide, by decide, by decide⟩

/-- C9 counterexample: after a one-read `DAP_Transfer` the machine reaches
the `UPLOAD_RXED_DATA` state with `txedLen = 7` while `txLen` still holds 2,
so `txedLen ≤ txLen` does not hold in every reachable state. -/
theorem txedlen_invariant_counterexample :
    simC9.fsm = .UPLOAD_RXED_DATA ∧ simC9.txedLen = 7 ∧ simC9.txLen = 2 ∧
    ¬ simC9.txedLen ≤ simC9.txLen := by
  refine ⟨by decide, by decide, by decide, by decide⟩

theorem drainInv_ite (c : Prop) [Decidable c] (a b : DapState) :
    drainInv (if c then a else b) = if c then drainInv a else drainInv b :=
  apply_ite drainInv c a b

theorem ite_fsm (c : Prop) [Decidable c] (a b : DapState) :
    (if c then a else b).fsm = if c then a.fsm else b.fsm := apply_ite DapState.fsm c a b

theorem ite_txedLen (c : Prop) [Decidable c] (a b : DapState) :
    (if c then a else b).txedLen = if c then a.txedLen else b.txedLen :=
  apply_ite DapState.txedLen c a b

theorem ite_txLen (c : Prop) [Decidable c] (a b : DapState) :
    (if c then a else b).txLen = if c then a.txLen else b.txLen :=
  apply_ite DapState.txLen c a b

theorem ite_matchretries (c : Prop) [Decidable c] (a b : DapState) :
    (if c then a else b).matchretries = if c then a.matchretries else b.matchretries :=
  apply_ite DapState.matchretries c a b

set_option maxHeartbeats 4000000 in
/-- C3: the match-retry budget is never counted: no clock edge in any state
ever changes the `matchretries` counter (it stays at its reset value 0
forever), so the comparison `matchretries < matchRetry` in the match-read
branch compares 0 with the configured budget; consequently, on the closed
run with `matchRetry = 2` and a never-matching read the dedicated mismatch
bit is already set after a single issued transaction, instead of after the
2 attempts the claim (and the handler's own comment) requires. -/
theorem match_retry_never_counted :
    (∀ s i, (step s i).matchretries = s.matchretries) ∧
    (simC3run.1.matchRetry = 2 ∧ simC3run.1.matchretries = 0 ∧
     simC3run.2.tfrIssues = 1 ∧ sel simC3run.1.txBlock 21 1 = 1 ∧
     simC3run.1.fsm = .IDLE) := by
  refine ⟨?_, by decide, by decide, by decide, by decide, by decide⟩
  intro s i
  cases hf : s.fsm <;>
    · simp only [step, hf]
      simp only [stIDLE, stRESPOND, stV1PACKETFILL, stRxParams,
        RESP_Invalid, RESP_Info, RESP_Not_Implemented, RESP_HostStatus, RESP_Connect_Setup,
        RESP_Wait_Connect_Done, RESP_Wait_Done, RESP_Disconnect, RESP_WriteABORT, RESP_Delay,
        RESP_ResetTarget, RESP_SWJ_Pins_Setup, RESP_SWJ_Pins_Process, RESP_SWJ_Clock,
        RESP_SWJ_Sequence_Setup, RESP_SWJ_Sequence_Process, RESP_SWD_Configure,
        RESP_JTAG_Configure, RESP_JTAG_IDCODE_Setup, RESP_JTAG_IDCODE_Process,
        RESP_TransferConfigure, RESP_Transfer_Setup, RESP_Transfer_Process,
        RESP_TransferBlock_Setup, RESP_TransferBlock_Process, RESP_Transfer_Complete,
        RESP_JTAG_Sequence_Setup, RESP_JTAG_Sequence_Process, tick,
        ite_matchretries, ite_self]

set_option maxHeartbeats 8000000 in
/-- C9 (amended): the invariant `txedLen ≤ txLen` holds whenever the
controller is in the `RESPOND` drain state (and the byte counter is still 0
in every state that can reach `RESPOND` without reloading it): the
predicate `drainInv` holds in the reset state, is preserved by every clock
edge, and therefore holds in every reachable state.  It is not a global
invariant because the transfer/JTAG streaming paths reuse `txedLen` as a
plain tally of bytes streamed directly, never entering `RESPOND`
(see `txedlen_invariant_counterexample`). -/
theorem respond_drain_invariant :
    drainInv dapInit ∧ (∀ s i, drainInv s → drainInv (step s i)) ∧
    (∀ l, drainInv (List.foldl step dapInit l)) := by
  have hinit : drainInv dapInit := by
    refine ⟨fun hx => ?_, fun hx => ?_⟩ <;> simp [dapInit] at hx
  have hstep : ∀ s i, drainInv s → drainInv (step s i) := by
    intro s i h
    obtain ⟨h1, h2⟩ := h
    cases hf : s.fsm
    case IDLE =>
      clear h1 h2
      simp only [step, hf]
      simp only [stIDLE, RESP_Invalid, tick, drainInv_ite]
      simp +contextual [drainInv, ite_fsm, ite_txedLen, ite_txLen, hf]
    case RESPOND =>
      have hle : s.txedLen ≤ s.txLen := h1 hf
      clear h1 h2
      simp only [step, hf]
      simp only [stRESPOND, tick, drainInv_ite]
      simp +contextual [drainInv, ite_fsm, ite_txedLen, ite_txLen, hf]
      intro hlt
      split <;> omega
    case V1PACKETFILL =>
      clear h1 h2
      simp only [step, hf]
      simp only [stV1PACKETFILL, tick, drainInv_ite]
      simp +contextual [drainInv, ite_fsm, ite_txedLen, ite_txLen, hf]
    case RxParams =>
      have ht0 : s.txedLen = 0 := h2 (by simp [hf])
      clear h1 h2
      simp only [step, hf]
      simp only [stRxParams, RESP_Invalid, RESP_Info, RESP_Not_Implemented,
        RESP_HostStatus, RESP_Connect_Setup, RESP_Disconnect, RESP_WriteABORT,
        RESP_Delay, RESP_ResetTarget, RESP_SWJ_Pins_Setup, RESP_SWJ_Clock,
        RESP_SWJ_Sequence_Setup, RESP_SWD_Configure, RESP_JTAG_Configure,
        RESP_JTAG_IDCODE_Setup, RESP_TransferConfigure, RESP_Transfer_Setup,
        RESP_TransferBlock_Setup, RESP_JTAG_Sequence_Setup, tick, drainInv_ite]
      simp +contextual [drainInv, ht0, ite_fsm, ite_txedLen, ite_txLen, hf]
    case DAP_SWJ_Pins_PROCESS =>
      have ht0 : s.txedLen = 0 := h2 (by simp [hf])
      clear h1 h2
      simp only [step, hf]
      simp only [RESP_SWJ_Pins_Process, tick, drainInv_ite]
      simp +contextual [drainInv, ht0, ite_fsm, ite_txedLen, ite_txLen, hf]
    case DAP_SWO_Data_PROCESS =>
      have ht0 : s.txedLen = 0 := h2 (by simp [hf])
      clear h1 h2
      simp only [step, hf]
      simp only [RESP_Not_Implemented, tick, drainInv_ite]
      simp +contextual [drainInv, ht0, ite_fsm, ite_txedLen, ite_txLen, hf]
    case DAP_SWJ_Sequence_PROCESS =>
      have ht0 : s.txedLen = 0 := h2 (by simp [hf])
      clear h1 h2
      simp only [step, hf]
      simp only [RESP_SWJ_Sequence_Process, tick, drainInv_ite]
      simp +contextual [drainInv, ht0, ite_fsm, ite_txedLen, ite_txLen, hf]
    case DAP_JTAG_Sequence_PROCESS =>
      clear h1 h2
      simp only [step, hf]
      simp only [RESP_JTAG_Sequence_Process, tick, drainInv_ite]
      simp +contextual [drainInv, ite_fsm, ite_txedLen, ite_txLen, hf]
    case DAP_Transfer_PROCESS =>
      clear h1 h2
      simp only [step, hf]
      simp only [RESP_Transfer_Process, tick, drainInv_ite]
      simp +contextual [drainInv, ite_fsm, ite_txedLen, ite_txLen, hf]
    case DAP_TransferBlock_PROCESS =>
      clear h1 h2
      simp only [step, hf]
      simp only [RESP_TransferBlock_Process, tick, drainInv_ite]
      simp +contextual [drainInv, ite_fsm, ite_txedLen, ite_txLen, hf]
    case UPLOAD_RXED_DATA =>
      clear h1 h2
      simp only [step, hf]
      simp only [RESP_Transfer_Complete, tick, drainInv_ite]
      simp +contextual [drainInv, ite_fsm, ite_txedLen, ite_txLen, hf]
    case JTAG_IDCODE_Process =>
      have ht0 : s.txedLen = 0 := h2 (by simp [hf])
      clear h1 h2
      simp only [step, hf]
      simp only [RESP_JTAG_IDCODE_Process, tick, drainInv_ite]
      simp +contextual [drainInv, ht0, ite_fsm, ite_txedLen, ite_txLen, hf]
    case DAP_SWD_Sequence_GetCount =>
      have ht0 : s.txedLen = 0 := h2 (by simp [hf])
      clear h1 h2
      simp only [step, hf]
      simp only [RESP_Invalid, tick, drainInv_ite]
      simp +contextual [drainInv, ht0, ite_fsm, ite_txedLen, ite_txLen, hf]
    case DAP_TransferBlock_State =>
      have ht0 : s.txedLen = 0 := h2 (by simp [hf])
      clear h1 h2
      simp only [step, hf]
      simp only [RESP_Invalid, tick, drainInv_ite]
      simp +contextual [drainInv, ht0, ite_fsm, ite_txedLen, ite_txLen, hf]
    case DAP_ExecuteCommands_GetNum =>
      have ht0 : s.txedLen = 0 := h2 (by simp [hf])
      clear h1 h2
      simp only [step, hf]
      simp only [RESP_Invalid, tick, drainInv_ite]
      simp +contextual [drainInv, ht0, ite_fsm, ite_txedLen, ite_txLen, hf]
    case DAP_QueueCommands_GetNum =>
      have ht0 : s.txedLen = 0 := h2 (by simp [hf])
      clear h1 h2
      simp only [step, hf]
      simp only [RESP_Invalid, tick, drainInv_ite]
      simp +contextual [drainInv, ht0, ite_fsm, ite_txedLen, ite_txLen, hf]
    case DAP_Wait_Done =>
      have ht0 : s.txedLen = 0 := h2 (by simp [hf])
      clear h1 h2
      simp only [step, hf]
      simp only [RESP_Wait_Done, tick, drainInv_ite]
      simp +contextual [drainInv, ht0, ite_fsm, ite_txedLen, ite_txLen, hf]
    case DAP_Wait_Connect_Done =>
      have ht0 : s.txedLen = 0 := h2 (by simp [hf])
      clear h1 h2
      simp only [step, hf]
      simp only [RESP_Wait_Connect_Done, tick, drainInv_ite]
      simp +contextual [drainInv, ht0, ite_fsm, ite_txedLen, ite_txLen, hf]
    case Error =>
      have ht0 : s.txedLen = 0 := h2 (by simp [hf])
      clear h1 h2
      simp only [step, hf]
      simp only [RESP_Invalid, tick, drainInv_ite]
      simp +contextual [drainInv, ht0, ite_fsm, ite_txedLen, ite_txLen, hf]
    case ProtocolError =>
      have ht0 : s.txedLen = 0 := h2 (by simp [hf])
      clear h1 h2
      simp only [step, hf]
      simp only [RESP_Invalid, tick, drainInv_ite]
      simp +contextual [drainInv, ht0, ite_fsm, ite_txedLen, ite_txLen, hf]
  have hfold : ∀ l s, drainInv s → drainInv (List.foldl step s l) := by
    intro l
    induction l with
    | nil => exact fun s hs => hs
    | cons a t ih => exact fun s hs => ih (step s a) (hstep s a hs)
  exact ⟨hinit, hstep, fun l => hfold l dapInit hinit⟩

/-- Witness for `respond_drain_invariant`: one step from reset preserves
the invariant. -/
theorem respond_drain_invariant_witness : drainInv (step dapInit idleIn) :=
  respond_drain_invariant.2.1 dapInit idleIn respond_drain_invariant.1

theorem EchoInv_ite (c : Prop) [Decidable c] (k : Nat) (a b : DapState) :
    EchoInv k (if c then a else b) = if c then EchoInv k a else EchoInv k b :=
  apply_ite (EchoInv k) c a b

theorem ite_txBlock (c : Prop) [Decidable c] (a b : DapState) :
    (if c then a else b).txBlock = if c then a.txBlock else b.txBlock :=
  apply_ite DapState.txBlock c a b

theorem ite_rxBlock (c : Prop) [Decidable c] (a b : DapState) :
    (if c then a else b).rxBlock = if c then a.rxBlock else b.rxBlock :=
  apply_ite DapState.rxBlock c a b

theorem ite_si_valid (c : Prop) [Decidable c] (a b : DapState) :
    (if c then a else b).si_valid = if c then a.si_valid else b.si_valid :=
  apply_ite DapState.si_valid c a b

theorem ite_si_payload (c : Prop) [Decidable c] (a b : DapState) :
    (if c then a else b).si_payload = if c then a.si_payload else b.si_payload :=
  apply_ite DapState.si_payload c a b

theorem ite_txb (c : Prop) [Decidable c] (a b : DapState) :
    (if c then a else b).txb = if c then a.txb else b.txb :=
  apply_ite DapState.txb c a b

theorem byteGet0_ite (c : Prop) [Decidable c] (a b : Nat) :
    byteGet (if c then a else b) 0 = if c then byteGet a 0 else byteGet b 0 := by
  rcases Decidable.em c with h | h <;> simp [h]

theorem byteGet0_mod2p112 (x : Nat) :
    byteGet (x % 5192296858534827628530496329220096) 0 = byteGet x 0 := by
  have h : (5192296858534827628530496329220096 : Nat) = 2 ^ 112 := by norm_num
  rw [h]
  exact byteGet0_mod_pow x 112 (by omega)

theorem byteGet0_mod2p56 (x : Nat) :
    byteGet (x % 72057594037927936) 0 = byteGet x 0 := by
  have h : (72057594037927936 : Nat) = 2 ^ 56 := by norm_num
  rw [h]
  exact byteGet0_mod_pow x 56 (by omega)

set_option maxHeartbeats 8000000 in
/-- `EchoInv` is preserved by every clock edge on which no response byte is
being presented (`si_valid = false`); with an always-ready sink this covers
every cycle up to the first handshake. -/
theorem echoInv_step (c : Nat) (s : DapState) (i : DapInputs)
    (h : EchoInv c s) (hv : s.si_valid = false) : EchoInv c (step s i) := by
  obtain ⟨hb, hcl⟩ := h
  rcases hcl with hcl | hcl | hcl | hcl | hcl | hcl | hcl | hcl | hcl
  · -- RESPOND
    obtain ⟨hf, ht0, htl, _⟩ := hcl
    have hlt : s.txedLen < s.txLen := by omega
    have hpos : 0 < s.txLen := by omega
    simp only [step, hf]
    simp only [stRESPOND, tick, EchoInv_ite]
    simp +contextual [EchoInv, hb, hv, hf, ht0, htl, hlt, hpos, ite_fsm,
      ite_txedLen, ite_txLen, ite_txBlock, ite_si_valid, ite_si_payload,
      ite_txb, byteGet0_ite, byteGet0_mod_pow, byteGet0_mod2p112,
      byteGet0_setBits, byteGet0_byteSet]
  · -- DAP_Wait_Done
    obtain ⟨hf, _, ht0, htl⟩ := hcl
    simp only [step, hf]
    simp only [RESP_Wait_Done, tick, EchoInv_ite]
    simp +contextual [EchoInv, hb, hv, hf, ht0, htl, ite_fsm,
      ite_txedLen, ite_txLen, ite_txBlock, ite_si_valid, ite_si_payload,
      ite_txb, byteGet0_ite, byteGet0_mod_pow, byteGet0_mod2p112,
      byteGet0_setBits, byteGet0_byteSet]
  · -- DAP_Wait_Connect_Done
    obtain ⟨hf, _, ht0, htl⟩ := hcl
    simp only [step, hf]
    simp only [RESP_Wait_Connect_Done, tick, EchoInv_ite]
    simp +contextual [EchoInv, hb, hv, hf, ht0, htl, ite_fsm,
      ite_txedLen, ite_txLen, ite_txBlock, ite_si_valid, ite_si_payload,
      ite_txb, byteGet0_ite]
  · -- DAP_SWJ_Pins_PROCESS
    obtain ⟨hf, _, ht0, htl⟩ := hcl
    simp only [step, hf]
    simp only [RESP_SWJ_Pins_Process, tick, EchoInv_ite]
    simp +contextual [EchoInv, hb, hv, hf, ht0, htl, ite_fsm,
      ite_txedLen, ite_txLen, ite_txBlock, ite_si_valid, ite_si_payload,
      ite_txb, byteGet0_ite, byteGet0_mod_pow, byteGet0_mod2p112,
      byteGet0_setBits, byteGet0_byteSet]
    all_goals intros
    all_goals try split_ifs
    all_goals omega
  · -- DAP_SWJ_Sequence_PROCESS
    obtain ⟨hf, _, ht0, htl⟩ := hcl
    simp only [step, hf]
    simp only [RESP_SWJ_Sequence_Process, tick, EchoInv_ite]
    simp +contextual [EchoInv, hb, hv, hf, ht0, htl, ite_fsm,
      ite_txedLen, ite_txLen, ite_txBlock, ite_si_valid, ite_si_payload,
      ite_txb, byteGet0_ite]
  · -- JTAG_IDCODE_Process
    obtain ⟨hf, _, ht0, htl⟩ := hcl
    simp only [step, hf]
    simp only [RESP_JTAG_IDCODE_Process, tick, EchoInv_ite]
    simp +contextual [EchoInv, hb, hv, hf, ht0, htl, ite_fsm,
      ite_txedLen, ite_txLen, ite_txBlock, ite_si_valid, ite_si_payload,
      ite_txb, byteGet0_ite, byteGet0_mod_pow, byteGet0_mod2p112,
      byteGet0_setBits, byteGet0_byteSet]
  · -- DAP_Transfer_PROCESS
    obtain ⟨hf, hcl⟩ := hcl
    rcases hcl with ⟨htb, _⟩ | ⟨_, hv2, _⟩
    · have h9 : s.txb = 0 ∨ s.txb = 1 ∨ s.txb = 2 ∨ s.txb = 3 ∨ s.txb = 4 ∨
          s.txb = 5 ∨ s.txb = 6 ∨ s.txb = 7 ∨ s.txb = 8 := by omega
      rcases h9 with ht | ht | ht | ht | ht | ht | ht | ht | ht <;>
        · simp only [step, hf]
          simp only [RESP_Transfer_Process, tick, EchoInv_ite, ht]
          simp +contextual [EchoInv, hb, hv, hf, ht, ite_fsm,
            ite_txedLen, ite_txLen, ite_txBlock, ite_si_valid, ite_si_payload,
            ite_txb, byteGet0_ite, byteGet0_mod_pow, byteGet0_mod2p112,
            byteGet0_setBits, byteGet0_byteSet]
          all_goals intros
          all_goals try split_ifs
          all_goals omega
    · simp [hv] at hv2
  · -- DAP_TransferBlock_PROCESS
    obtain ⟨hf, hcl⟩ := hcl
    rcases hcl with ⟨htb, _⟩ | ⟨_, hv2, _⟩
    · have h8 : s.txb = 0 ∨ s.txb = 1 ∨ s.txb = 2 ∨ s.txb = 3 ∨ s.txb = 4 ∨
          s.txb = 5 ∨ s.txb = 6 ∨ s.txb = 7 := by omega
      rcases h8 with ht | ht | ht | ht | ht | ht | ht | ht <;>
        · simp only [step, hf]
          simp only [RESP_TransferBlock_Process, tick, EchoInv_ite, ht]
          simp +contextual [EchoInv, hb, hv, hf, ht, ite_fsm,
            ite_txedLen, ite_txLen, ite_txBlock, ite_si_valid, ite_si_payload,
            ite_txb, byteGet0_ite, byteGet0_mod_pow, byteGet0_mod2p112,
            byteGet0_setBits, byteGet0_byteSet]
          all_goals intros
          all_goals try split_ifs
          all_goals omega
    · simp [hv] at hv2
  · -- DAP_JTAG_Sequence_PROCESS
    obtain ⟨hf, hc14, hcl⟩ := hcl
    rcases hcl with ⟨ht, _⟩ | ⟨_, hv2, _⟩
    · simp only [step, hf]
      simp only [RESP_JTAG_Sequence_Process, tick, EchoInv_ite, ht]
      simp +contextual [EchoInv, hb, hv, hf, ht, hc14, ite_fsm,
        ite_txedLen, ite_txLen, ite_txBlock, ite_si_valid, ite_si_payload,
        ite_txb, byteGet0_ite]
      all_goals intros
      all_goals try split_ifs
      all_goals omega
    · simp [hv] at hv2

/-- Any byte handed to the host from a state satisfying `EchoInv c` over a
run with an always-ready sink can only be `c` (the first handshake returns
the presented byte, which the invariant pins to `c`). -/
theorem echoInv_firstOut (l : List DapInputs) :
    ∀ (c : Nat) (s : DapState), EchoInv c s → (∀ j ∈ l, j.si_ready = true) →
      ∀ b, firstOut s l = some b → b = c := by
  induction l with
  | nil =>
    intro c s _ _ b hfo
    simp [firstOut] at hfo
  | cons i t ih =>
    intro c s hInv hr b hfo
    by_cases hv : s.si_valid = true
    · have hready : i.si_ready = true := hr i (List.mem_cons_self i t)
      simp [firstOut, hv, hready] at hfo
      have hp : s.si_payload = c := by
        obtain ⟨_, hcl⟩ := hInv
        rcases hcl with ⟨_, _, _, h4⟩ | h | h | h | h | h | ⟨_, h⟩ | ⟨_, h⟩ | ⟨_, _, h⟩
        · rcases h4 with hvf | hp
          · simp [hv] at hvf
          · exact hp
        · simp [hv] at h
        · simp [hv] at h
        · simp [hv] at h
        · simp [hv] at h
        · simp [hv] at h
        · rcases h with ⟨_, hvf⟩ | ⟨_, _, hp⟩
          · simp [hv] at hvf
          · exact hp
        · rcases h with ⟨_, hvf⟩ | ⟨_, _, hp⟩
          · simp [hv] at hvf
          · exact hp
        · rcases h with ⟨_, hvf⟩ | ⟨_, _, hp⟩
          · simp [hv] at hvf
          · exact hp
      rw [← hfo]
      exact hp
    · have hv' : s.si_valid = false := by simpa using hv
      have hstep : firstOut s (i :: t) = firstOut (step s i) t := by
        simp [firstOut, hv']
      rw [hstep] at hfo
      exact ih c (step s i) (echoInv_step c s i hInv hv')
        (fun j hj => hr j (List.mem_cons_of_mem i hj)) b hfo

set_option maxHeartbeats 8000000 in
/-- Dispatching a fully received supported command whose parameters its
handler accepts establishes the echo invariant for the received command
id. -/
theorem echoInv_dispatch (s : DapState) (i : DapInputs) (c : Nat)
    (hf : s.fsm = .RxParams) (hl : s.rxedLen = s.rxLen)
    (hc : byteGet s.rxBlock 0 = c) (hm : c ∈ supportedCmds)
    (hp : paramsAccepted c s.rxBlock) (hb : byteGet s.txBlock 0 = c)
    (htl : 1 ≤ s.txLen) (ht0 : s.txedLen = 0) :
    EchoInv c (step s i) := by
  simp only [supportedCmds, List.mem_cons, List.mem_singleton, List.mem_nil_iff,
    or_false] at hm
  rcases hm with rfl | rfl | rfl | rfl | rfl | rfl | rfl | rfl | rfl | rfl | rfl |
    rfl | rfl | rfl | rfl | rfl | rfl | rfl | rfl | rfl | rfl | rfl | rfl | rfl
  -- DAP_Info: fourteen recognized info ids
  · have hi := hp.1 rfl
    simp only [List.mem_cons, List.mem_singleton, List.mem_nil_iff, or_false] at hi
    rcases hi with h | h | h | h | h | h | h | h | h | h | h | h | h | h <;>
      · simp only [step, normIn, stRxParams, tick, RESP_Info, RESP_Invalid, hf, hl, hc, h,
          DAP_Info, DAP_HostStatus, DAP_Connect, DAP_Disconnect, DAP_WriteABORT,
          DAP_Delay, DAP_ResetTarget, DAP_SWJ_Pins, DAP_SWJ_Clock, DAP_SWJ_Sequence,
          DAP_SWD_Configure, DAP_SWO_Transport, DAP_SWO_Mode, DAP_SWO_Baudrate,
          DAP_SWO_Control, DAP_SWO_Status, DAP_SWO_ExtendedStatus, DAP_SWO_Data,
          DAP_JTAG_Sequence, DAP_JTAG_Configure, DAP_JTAG_IDCODE,
          DAP_TransferConfigure, DAP_Transfer, DAP_TransferBlock]
        norm_num
        simp +contextual [EchoInv, EchoInv_ite, hb, ht0, htl, DAP_Info, DAP_HostStatus, DAP_Connect, DAP_Disconnect, DAP_WriteABORT,
      DAP_Delay, DAP_ResetTarget, DAP_SWJ_Pins, DAP_SWJ_Clock, DAP_SWJ_Sequence,
      DAP_SWD_Configure, DAP_SWO_Transport, DAP_SWO_Mode, DAP_SWO_Baudrate,
      DAP_SWO_Control, DAP_SWO_Status, DAP_SWO_ExtendedStatus, DAP_SWO_Data,
      DAP_JTAG_Configure, DAP_JTAG_IDCODE, DAP_Invalid,
      DAP_TransferConfigure, DAP_Transfer, DAP_TransferBlock, ite_fsm, ite_txedLen,
          ite_txLen, ite_txBlock, ite_si_valid, ite_si_payload, ite_txb,
          byteGet0_ite, byteGet0_mod_pow, byteGet0_mod2p112, byteGet0_mod2p56,
          byteGet0_setBits, byteGet0_byteSet, DAP_PROTOCOL_STRING_LEN,
          DAP_VERSION_STRING_LEN, DAP_JTAG_Sequence]
        all_goals intros
        all_goals try split_ifs
        all_goals try simp [byteGet, byteSet, sel, setBits, DAP_Info, DAP_Invalid] at hb ⊢
        all_goals omega
  -- DAP_HostStatus: type byte 0 or 1
  · rcases hp.2.1 rfl with h | h <;>
      · simp only [step, normIn, stRxParams, tick, RESP_HostStatus, RESP_Invalid,
          hf, hl, hc, h,
          DAP_Info, DAP_HostStatus, DAP_Connect, DAP_Disconnect, DAP_WriteABORT,
          DAP_Delay, DAP_ResetTarget, DAP_SWJ_Pins, DAP_SWJ_Clock, DAP_SWJ_Sequence,
          DAP_SWD_Configure, DAP_SWO_Transport, DAP_SWO_Mode, DAP_SWO_Baudrate,
          DAP_SWO_Control, DAP_SWO_Status, DAP_SWO_ExtendedStatus, DAP_SWO_Data,
          DAP_JTAG_Sequence, DAP_JTAG_Configure, DAP_JTAG_IDCODE,
          DAP_TransferConfigure, DAP_Transfer, DAP_TransferBlock]
        norm_num
        simp +contextual [EchoInv, EchoInv_ite, hb, ht0, htl, DAP_Info, DAP_HostStatus, DAP_Connect, DAP_Disconnect, DAP_WriteABORT,
      DAP_Delay, DAP_ResetTarget, DAP_SWJ_Pins, DAP_SWJ_Clock, DAP_SWJ_Sequence,
      DAP_SWD_Configure, DAP_SWO_Transport, DAP_SWO_Mode, DAP_SWO_Baudrate,
      DAP_SWO_Control, DAP_SWO_Status, DAP_SWO_ExtendedStatus, DAP_SWO_Data,
      DAP_JTAG_Configure, DAP_JTAG_IDCODE, DAP_Invalid,
      DAP_TransferConfigure, DAP_Transfer, DAP_TransferBlock, ite_fsm, ite_txedLen,
          ite_txLen, ite_txBlock, ite_si_valid, ite_si_payload, ite_txb,
          byteGet0_ite, byteGet0_mod_pow, byteGet0_mod2p112, byteGet0_mod2p56,
          byteGet0_setBits, byteGet0_byteSet, DAP_JTAG_Sequence]
        all_goals intros
        all_goals try split_ifs
        all_goals try simp [byteGet, byteSet, sel, setBits, DAP_HostStatus, DAP_Invalid] at hb ⊢
        all_goals omega
  -- DAP_Connect: port byte 0, 1 or 2
  · have hx := hp.2.2 rfl
    rcases show byteGet s.rxBlock 1 = 0 ∨ byteGet s.rxBlock 1 = 1 ∨
        byteGet s.rxBlock 1 = 2 from by omega with h | h | h <;>
      · simp only [step, normIn, stRxParams, tick, RESP_Connect_Setup, RESP_Invalid,
          hf, hl, hc, h,
          DAP_Info, DAP_HostStatus, DAP_Connect, DAP_Disconnect, DAP_WriteABORT,
          DAP_Delay, DAP_ResetTarget, DAP_SWJ_Pins, DAP_SWJ_Clock, DAP_SWJ_Sequence,
          DAP_SWD_Configure, DAP_SWO_Transport, DAP_SWO_Mode, DAP_SWO_Baudrate,
          DAP_SWO_Control, DAP_SWO_Status, DAP_SWO_ExtendedStatus, DAP_SWO_Data,
          DAP_JTAG_Sequence, DAP_JTAG_Configure, DAP_JTAG_IDCODE,
          DAP_TransferConfigure, DAP_Transfer, DAP_TransferBlock]
        norm_num
        simp +contextual [EchoInv, EchoInv_ite, hb, ht0, htl, DAP_Info, DAP_HostStatus, DAP_Connect, DAP_Disconnect, DAP_WriteABORT,
      DAP_Delay, DAP_ResetTarget, DAP_SWJ_Pins, DAP_SWJ_Clock, DAP_SWJ_Sequence,
      DAP_SWD_Configure, DAP_SWO_Transport, DAP_SWO_Mode, DAP_SWO_Baudrate,
      DAP_SWO_Control, DAP_SWO_Status, DAP_SWO_ExtendedStatus, DAP_SWO_Data,
      DAP_JTAG_Configure, DAP_JTAG_IDCODE, DAP_Invalid,
      DAP_TransferConfigure, DAP_Transfer, DAP_TransferBlock, ite_fsm, ite_txedLen,
          ite_txLen, ite_txBlock, ite_si_valid, ite_si_payload, ite_txb,
          byteGet0_ite, byteGet0_mod_pow, byteGet0_mod2p112, byteGet0_mod2p56,
          byteGet0_setBits, byteGet0_byteSet, DAP_JTAG_Sequence]
        all_goals intros
        all_goals try split_ifs
        all_goals try simp [byteGet, byteSet, sel, setBits, DAP_Connect, DAP_Invalid] at hc hb ⊢
        all_goals omega
  all_goals
    simp only [step, normIn, stRxParams, tick,
      RESP_Invalid, RESP_Info, RESP_Not_Implemented, RESP_HostStatus,
      RESP_Connect_Setup, RESP_Disconnect, RESP_WriteABORT, RESP_Delay,
      RESP_ResetTarget, RESP_SWJ_Pins_Setup, RESP_SWJ_Clock,
      RESP_SWJ_Sequence_Setup, RESP_SWD_Configure, RESP_JTAG_Configure,
      RESP_JTAG_IDCODE_Setup, RESP_TransferConfigure, RESP_Transfer_Setup,
      RESP_TransferBlock_Setup, RESP_JTAG_Sequence_Setup, hf, hl, hc,
      DAP_Info, DAP_HostStatus, DAP_Connect, DAP_Disconnect, DAP_WriteABORT,
      DAP_Delay, DAP_ResetTarget, DAP_SWJ_Pins, DAP_SWJ_Clock, DAP_SWJ_Sequence,
      DAP_SWD_Configure, DAP_SWO_Transport, DAP_SWO_Mode, DAP_SWO_Baudrate,
      DAP_SWO_Control, DAP_SWO_Status, DAP_SWO_ExtendedStatus, DAP_SWO_Data,
      DAP_JTAG_Sequence, DAP_JTAG_Configure, DAP_JTAG_IDCODE,
      DAP_TransferConfigure, DAP_Transfer, DAP_TransferBlock]
  all_goals norm_num
  all_goals simp +contextual [EchoInv, EchoInv_ite, hb, ht0, htl, DAP_Info, DAP_HostStatus, DAP_Connect, DAP_Disconnect, DAP_WriteABORT,
      DAP_Delay, DAP_ResetTarget, DAP_SWJ_Pins, DAP_SWJ_Clock, DAP_SWJ_Sequence,
      DAP_SWD_Configure, DAP_SWO_Transport, DAP_SWO_Mode, DAP_SWO_Baudrate,
      DAP_SWO_Control, DAP_SWO_Status, DAP_SWO_ExtendedStatus, DAP_SWO_Data,
      DAP_JTAG_Configure, DAP_JTAG_IDCODE, DAP_Invalid,
      DAP_TransferConfigure, DAP_Transfer, DAP_TransferBlock, ite_fsm, ite_txedLen,
    ite_txLen, ite_txBlock, ite_si_valid, ite_si_payload, ite_txb,
    byteGet0_ite, byteGet0_mod_pow, byteGet0_mod2p112, byteGet0_mod2p56,
    byteGet0_setBits, byteGet0_byteSet, DAP_JTAG_Sequence]
  all_goals intros
  all_goals try split_ifs
  all_goals try simp [byteGet, byteSet, sel, setBits, DAP_Invalid, DAP_Disconnect, DAP_WriteABORT,
    DAP_Delay, DAP_ResetTarget, DAP_SWJ_Pins, DAP_SWJ_Clock, DAP_SWJ_Sequence,
    DAP_SWD_Configure, DAP_SWO_Transport, DAP_SWO_Mode, DAP_SWO_Baudrate,
    DAP_SWO_Control, DAP_SWO_Status, DAP_SWO_ExtendedStatus, DAP_SWO_Data,
    DAP_JTAG_Configure, DAP_JTAG_IDCODE,
    DAP_TransferConfigure, DAP_Transfer, DAP_TransferBlock] at hc hb ⊢
  all_goals omega

set_option maxHeartbeats 8000000 in
/-- C1 (amended): for every supported command received as a well-formed
packet whose parameter bytes the handler accepts, the first byte of the
response sent back to the host equals the command id.  Concretely:
(1) accepting a supported first byte in `IDLE` loads the command id into
both response byte 0 and request byte 0, with `txLen = 2`, `txedLen = 0`
and nothing presented on `streamIn`; (2) collecting a further parameter
byte (without foreshortening) changes none of these; (3) dispatching the
fully received command with accepted parameters never overwrites the echo
in response byte 0; (4) in `RESPOND` the first byte presented is exactly
response byte 0; and (5) end to end: from the dispatch state, over any
input schedule whose sink is always ready, the first byte handed to the
host on `streamIn` — whether drained from `RESPOND` or streamed directly by
the `DAP_Transfer`/`DAP_TransferBlock`/`DAP_JTAG_Sequence` engines — equals
the command id.  (When a handler rejects the parameters the response is
instead the generic invalid marker, as `command_echo_counterexample`
shows.) -/
theorem supported_command_echoes_id :
    (∀ s i c, s.fsm = .IDLE → s.busy = false → i.so_valid = true →
      i.so_first = true → i.so_payload = c → c ∈ supportedCmds →
      byteGet (step s i).txBlock 0 = c ∧ byteGet (step s i).rxBlock 0 = c ∧
      (step s i).txLen = 2 ∧ (step s i).txedLen = 0 ∧
      (step s i).si_valid = false) ∧
    (∀ s i, s.fsm = .RxParams → s.rxedLen ≠ s.rxLen → 1 ≤ s.rxedLen →
      ¬(i.so_last = true ∧ s.rxedLen + 1 ≠ s.rxLen) →
      (step s i).fsm = .RxParams ∧
      byteGet (step s i).txBlock 0 = byteGet s.txBlock 0 ∧
      byteGet (step s i).rxBlock 0 = byteGet s.rxBlock 0 ∧
      (step s i).txLen = s.txLen ∧ (step s i).txedLen = s.txedLen ∧
      (step s i).si_valid = false) ∧
    (∀ s i c, s.fsm = .RxParams → s.rxedLen = s.rxLen → byteGet s.rxBlock 0 = c →
      c ∈ supportedCmds → paramsAccepted c s.rxBlock → byteGet s.txBlock 0 = c →
      byteGet (step s i).txBlock 0 = c) ∧
    (∀ s i, s.fsm = .RESPOND → s.txedLen = 0 → 0 < s.txLen → s.si_valid = false →
      (step s i).si_payload = byteGet s.txBlock 0 ∧ (step s i).si_valid = true) ∧
    (∀ s c, s.fsm = .RxParams → s.rxedLen = s.rxLen → byteGet s.rxBlock 0 = c →
      c ∈ supportedCmds → paramsAccepted c s.rxBlock → byteGet s.txBlock 0 = c →
      1 ≤ s.txLen → s.txedLen = 0 → s.si_valid = false →
      ∀ l, (∀ j ∈ l, j.si_ready = true) →
        ∀ b, firstOut s l = some b → b = c) := by
  refine ⟨?_, ?_, ?_, ?_, ?_⟩
  · -- (1) the IDLE echo load
    intro s i c hf hbz hsv hsf hpay hm
    simp only [supportedCmds, List.mem_cons, List.mem_singleton, List.mem_nil_iff,
      or_false] at hm
    rcases hm with rfl | rfl | rfl | rfl | rfl | rfl | rfl | rfl | rfl | rfl | rfl |
      rfl | rfl | rfl | rfl | rfl | rfl | rfl | rfl | rfl | rfl | rfl | rfl | rfl <;>
      · simp only [step, normIn, stIDLE, RESP_Invalid, tick, hf, hsv, hsf, hbz, hpay,
          DAP_Info, DAP_HostStatus, DAP_Connect, DAP_Disconnect, DAP_WriteABORT,
          DAP_Delay, DAP_ResetTarget, DAP_SWJ_Pins, DAP_SWJ_Clock, DAP_SWJ_Sequence,
          DAP_SWD_Configure, DAP_SWO_Transport, DAP_SWO_Mode, DAP_SWO_Baudrate,
          DAP_SWO_Control, DAP_SWO_Status, DAP_SWO_ExtendedStatus, DAP_SWO_Data,
          DAP_JTAG_Sequence, DAP_JTAG_Configure, DAP_JTAG_IDCODE, DAP_SWD_Sequence,
          DAP_ExecuteCommands, DAP_QueueCommands, DAP_TransferAbort,
          DAP_TransferConfigure, DAP_Transfer, DAP_TransferBlock]
        norm_num
        all_goals try split_ifs
        all_goals simp [byteGet, byteSet, sel, setBits]
        all_goals try omega
  · -- (2) parameter collection preserves the echo
    intro s i hf hne h1 hok
    by_cases hlast : i.so_last = true
    · have heq : s.rxedLen + 1 = s.rxLen := by
        by_contra hne2
        exact hok ⟨hlast, hne2⟩
      simp only [step, normIn, stRxParams, RESP_Invalid, tick, hf, hlast]
      norm_num [hne]
      simp +contextual [heq, h1, ite_fsm, ite_txedLen, ite_txLen, ite_txBlock,
        ite_rxBlock, ite_si_valid, byteGet0_ite, byteGet0_mod2p56, byteGet0_mod_pow,
        byteGet0_byteSet]
      all_goals intros
      all_goals try split_ifs
      all_goals try simp [byteGet, byteSet, sel, setBits]
      all_goals omega
    · have hlast' : i.so_last = false := by simpa using hlast
      simp only [step, normIn, stRxParams, RESP_Invalid, tick, hf, hlast']
      norm_num [hne]
      simp +contextual [h1, ite_fsm, ite_txedLen, ite_txLen, ite_txBlock,
        ite_rxBlock, ite_si_valid, byteGet0_ite, byteGet0_mod2p56, byteGet0_mod_pow,
        byteGet0_byteSet]
      all_goals intros
      all_goals try split_ifs
      all_goals try simp [byteGet, byteSet, sel, setBits]
      all_goals omega
  · -- (3) dispatch preserves the echo in response byte 0
    intro s i c hf hl hc hm hp hb
    simp only [supportedCmds, List.mem_cons, List.mem_singleton, List.mem_nil_iff,
      or_false] at hm
    rcases hm with rfl | rfl | rfl | rfl | rfl | rfl | rfl | rfl | rfl | rfl | rfl |
      rfl | rfl | rfl | rfl | rfl | rfl | rfl | rfl | rfl | rfl | rfl | rfl | rfl
    -- DAP_Info: fourteen recognized info ids
    · have hi := hp.1 rfl
      simp only [List.mem_cons, List.mem_singleton, List.mem_nil_iff, or_false] at hi
      rcases hi with h | h | h | h | h | h | h | h | h | h | h | h | h | h <;>
        · simp only [step, normIn, stRxParams, tick, RESP_Info, RESP_Invalid, hf, hl, hc, h,
            DAP_Info, DAP_HostStatus, DAP_Connect, DAP_Disconnect, DAP_WriteABORT,
            DAP_Delay, DAP_ResetTarget, DAP_SWJ_Pins, DAP_SWJ_Clock, DAP_SWJ_Sequence,
            DAP_SWD_Configure, DAP_SWO_Transport, DAP_SWO_Mode, DAP_SWO_Baudrate,
            DAP_SWO_Control, DAP_SWO_Status, DAP_SWO_ExtendedStatus, DAP_SWO_Data,
            DAP_JTAG_Sequence, DAP_JTAG_Configure, DAP_JTAG_IDCODE,
            DAP_TransferConfigure, DAP_Transfer, DAP_TransferBlock]
          norm_num
          try split_ifs
          all_goals try simp [byteGet, byteSet, sel, setBits, DAP_Info,
            DAP_PROTOCOL_STRING, DAP_PROTOCOL_STRING_LEN, DAP_VERSION_STRING,
            DAP_VERSION_STRING_LEN, DAP_CAPABILITIES, DAP_TD_TIMER_FREQ,
            DAP_MAX_PACKET_COUNT, DAP_V1_MAX_PACKET_SIZE,
            DAP_V2_MAX_PACKET_SIZE] at hb ⊢
          all_goals omega
    -- DAP_HostStatus: type byte 0 or 1
    · rcases hp.2.1 rfl with h | h <;>
        · simp only [step, normIn, stRxParams, tick, RESP_HostStatus, RESP_Invalid,
            hf, hl, hc, h,
            DAP_Info, DAP_HostStatus, DAP_Connect, DAP_Disconnect, DAP_WriteABORT,
            DAP_Delay, DAP_ResetTarget, DAP_SWJ_Pins, DAP_SWJ_Clock, DAP_SWJ_Sequence,
            DAP_SWD_Configure, DAP_SWO_Transport, DAP_SWO_Mode, DAP_SWO_Baudrate,
            DAP_SWO_Control, DAP_SWO_Status, DAP_SWO_ExtendedStatus, DAP_SWO_Data,
            DAP_JTAG_Sequence, DAP_JTAG_Configure, DAP_JTAG_IDCODE,
            DAP_TransferConfigure, DAP_Transfer, DAP_TransferBlock]
          norm_num
          try split_ifs
          all_goals try simp [byteGet, byteSet, sel, setBits, DAP_HostStatus] at hb ⊢
          all_goals omega
    -- DAP_Connect: port byte 0, 1 or 2
    · have hx := hp.2.2 rfl
      rcases show byteGet s.rxBlock 1 = 0 ∨ byteGet s.rxBlock 1 = 1 ∨
          byteGet s.rxBlock 1 = 2 from by omega with h | h | h <;>
        · simp only [step, normIn, stRxParams, tick, RESP_Connect_Setup, RESP_Invalid,
            hf, hl, hc, h,
            DAP_Info, DAP_HostStatus, DAP_Connect, DAP_Disconnect, DAP_WriteABORT,
            DAP_Delay, DAP_ResetTarget, DAP_SWJ_Pins, DAP_SWJ_Clock, DAP_SWJ_Sequence,
            DAP_SWD_Configure, DAP_SWO_Transport, DAP_SWO_Mode, DAP_SWO_Baudrate,
            DAP_SWO_Control, DAP_SWO_Status, DAP_SWO_ExtendedStatus, DAP_SWO_Data,
            DAP_JTAG_Sequence, DAP_JTAG_Configure, DAP_JTAG_IDCODE,
            DAP_TransferConfigure, DAP_Transfer, DAP_TransferBlock]
          norm_num
          try split_ifs
          all_goals try simp [byteGet, byteSet, sel, setBits, DAP_Connect] at hb ⊢
          all_goals omega
    all_goals
      simp only [step, normIn, stRxParams, tick,
        RESP_Invalid, RESP_Info, RESP_Not_Implemented, RESP_HostStatus,
        RESP_Connect_Setup, RESP_Disconnect, RESP_WriteABORT, RESP_Delay,
        RESP_ResetTarget, RESP_SWJ_Pins_Setup, RESP_SWJ_Clock,
        RESP_SWJ_Sequence_Setup, RESP_SWD_Configure, RESP_JTAG_Configure,
        RESP_JTAG_IDCODE_Setup, RESP_TransferConfigure, RESP_Transfer_Setup,
        RESP_TransferBlock_Setup, RESP_JTAG_Sequence_Setup, hf, hl, hc,
        DAP_Info, DAP_HostStatus, DAP_Connect, DAP_Disconnect, DAP_WriteABORT,
        DAP_Delay, DAP_ResetTarget, DAP_SWJ_Pins, DAP_SWJ_Clock, DAP_SWJ_Sequence,
        DAP_SWD_Configure, DAP_SWO_Transport, DAP_SWO_Mode, DAP_SWO_Baudrate,
        DAP_SWO_Control, DAP_SWO_Status, DAP_SWO_ExtendedStatus, DAP_SWO_Data,
        DAP_JTAG_Sequence, DAP_JTAG_Configure, DAP_JTAG_IDCODE,
        DAP_TransferConfigure, DAP_Transfer, DAP_TransferBlock]
    all_goals norm_num
    all_goals try split_ifs
    all_goals try simp [byteGet, byteSet, sel, setBits, DAP_Disconnect, DAP_WriteABORT,
      DAP_Delay, DAP_ResetTarget, DAP_SWJ_Pins, DAP_SWJ_Clock, DAP_SWJ_Sequence,
      DAP_SWD_Configure, DAP_SWO_Transport, DAP_SWO_Mode, DAP_SWO_Baudrate,
      DAP_SWO_Control, DAP_SWO_Status, DAP_SWO_ExtendedStatus, DAP_SWO_Data,
      DAP_JTAG_Sequence, DAP_JTAG_Configure, DAP_JTAG_IDCODE,
      DAP_TransferConfigure, DAP_Transfer, DAP_TransferBlock] at hb ⊢
    all_goals omega
  · -- (4) RESPOND presents response byte 0 first
    intro s i hf ht0 hpos hsv
    simp only [step, normIn, stRESPOND, tick, hf, ht0, hsv]
    norm_num [hpos]
  · -- (5) end to end: the first byte handed to the host is the command id
    intro s c hf hl hc hm hp hb htl ht0 hsv l hr b hfo
    cases l with
    | nil => simp [firstOut] at hfo
    | cons i t =>
      have hstep2 : firstOut s (i :: t) = firstOut (step s i) t := by
        simp [firstOut, hsv]
      rw [hstep2] at hfo
      exact echoInv_firstOut t c (step s i)
        (echoInv_dispatch s i c hf hl hc hm hp hb htl ht0)
        (fun j hj => hr j (List.mem_cons_of_mem i hj)) b hfo

/-- Witness for `supported_command_echoes_id`: a dispatched single-read
`DAP_Transfer` (count 1, a path that streams its response directly and
never enters `RESPOND`) driven through the transaction; the first byte on
`streamIn` is the echoed command id 0x05. -/
theorem supported_command_echoes_id_witness :
    firstOut tfrEchoState tfrEchoInputs = some DAP_Transfer := by
  have h5 : firstOut tfrEchoState tfrEchoInputs = some 5 := by decide
  have h := supported_command_echoes_id.2.2.2.2
    tfrEchoState DAP_Transfer rfl rfl (by decide) (by decide)
    (by
      unfold paramsAccepted
      exact ⟨fun hh => absurd hh (by decide), fun hh => absurd hh (by decide),
        fun hh => absurd hh (by decide)⟩)
    (by decide) (by decide) rfl rfl
    tfrEchoInputs (by decide) 5 h5
  rw [h5, h]

end CmsisDap
